import Mathlib

/-!
Shallow embedding of the adaptive-quadrature core of rust-GSL
(src/src/types/integration.rs) and proofs about the frozen claims.

Modelling conventions:
* `f64` values are embedded as `ℚ` with exact arithmetic; the machine
  constants `DBL_EPSILON`, `DBL_MIN`, `DBL_MAX` are the exact rationals of
  the corresponding IEEE-754 doubles.
* The C arrays behind the workspace (`alist`, `blist`, `rlist`, `elist`,
  `order`, `level`) are embedded as total functions from `ℕ`; every write
  in the source becomes a `Function.update`.  The allocation
  (`gsl_integration_workspace_alloc`) is not in src/, so freshly allocated
  memory is modelled as zero-initialised.
* `u64`/`uint` counters are embedded as `ℕ`.  At every subtraction site of
  the source we use `u64sub`, which reproduces the wrap-around of u64
  subtraction exactly (the source predates Rust's overflow checks, so
  subtraction wraps silently).  Additions of loop counters and sizes never
  come close to 2^64 in any run bounded by a workspace capacity, so they
  are embedded as plain `ℕ` additions.
* `while` loops are embedded as structurally recursive functions whose
  fuel argument is exactly the quantity that bounds the loop in the
  source (e.g. `top - i` for a loop guarded by `i < top`), so the
  recursion stops precisely when the source loop stops.
-/

namespace RustGsl

/-- 2^64, the modulus of u64 arithmetic. -/
def U64LIM : ℕ := 2 ^ 64

/-- u64 subtraction `a - b` with silent wrap-around, as in the source's
pre-1.0 Rust (valid for `b ≤ 2^64`). -/
def u64sub (a b : ℕ) : ℕ := (a + U64LIM - b) % U64LIM

/-- Modelled from the spec: `::DBL_EPSILON` is not in src/; it is the IEEE
double machine epsilon 2^-52. -/
def DBL_EPSILON : ℚ := 1 / 2 ^ 52

/-- Modelled from the spec: `::DBL_MAX` is not in src/; it is the largest
finite IEEE double (2^53 - 1) * 2^971. -/
def DBL_MAX : ℚ := (2 ^ 53 - 1) * 2 ^ 971

/-- `f64::max` on the rational embedding: a computable rendering of
`max` (equal to it by `fmax_eq_max` below); used wherever the source calls
`.max(..)` so that concrete runs evaluate inside the kernel. -/
def fmax (a b : ℚ) : ℚ := if a ≤ b then b else a

/-- `fabsf64` on the rational embedding: a computable rendering of `|..|`
(equal to it by `fabsf64_eq_abs` below); used wherever the source calls
`fabsf64(..)` so that concrete runs evaluate inside the kernel. -/
def fabsf64 (a : ℚ) : ℚ := if a < 0 then -a else a

/-- The subset of `enums::Value` used by the integration routines
(`enums` is not in src/; the variants are named exactly as used there). -/
inductive Value where
  | Success
  | Inval
  | BadTol
  | Round
  | Sing
  | MaxIter
  | Failed
deriving DecidableEq, Repr

/-- The state behind `ffi::gsl_integration_workspace` (struct not in src/;
its fields are exactly the ones the source reads and writes). -/
structure IntegrationWorkspace where
  limit : ℕ
  size : ℕ
  nrmax : ℕ
  i : ℕ
  maximum_level : ℕ
  alist : ℕ → ℚ
  blist : ℕ → ℚ
  rlist : ℕ → ℚ
  elist : ℕ → ℚ
  order : ℕ → ℕ
  level : ℕ → ℕ

/-- `gsl_integration_workspace_alloc n` (not in src/): arrays of capacity
`n`, counters zero; fresh memory modelled as zero-initialised. -/
def mkWorkspace (n : ℕ) : IntegrationWorkspace :=
  { limit := n, size := 0, nrmax := 0, i := 0, maximum_level := 0,
    alist := fun _ => 0, blist := fun _ => 0, rlist := fun _ => 0,
    elist := fun _ => 0, order := fun _ => 0, level := fun _ => 0 }

/-- `IntegrationWorkspace::initialise` (integration.rs lines 305-328). -/
def IntegrationWorkspace.initialise (w : IntegrationWorkspace) (a b : ℚ) :
    IntegrationWorkspace :=
  { w with
    size := 0, nrmax := 0, i := 0, maximum_level := 0,
    alist := Function.update w.alist 0 a,
    blist := Function.update w.blist 0 b,
    rlist := Function.update w.rlist 0 0,
    elist := Function.update w.elist 0 0,
    order := Function.update w.order 0 0,
    level := Function.update w.level 0 0 }

/-- `IntegrationWorkspace::set_initial_result` (lines 294-303). -/
def IntegrationWorkspace.set_initial_result (w : IntegrationWorkspace)
    (result error : ℚ) : IntegrationWorkspace :=
  { w with
    size := 1,
    rlist := Function.update w.rlist 0 result,
    elist := Function.update w.elist 0 error }

/-- `IntegrationWorkspace::retrieve` (lines 220-235): bounds, result and
error of the subinterval at the cached index `i`. -/
def IntegrationWorkspace.retrieve (w : IntegrationWorkspace) : ℚ × ℚ × ℚ × ℚ :=
  (w.alist w.i, w.blist w.i, w.rlist w.i, w.elist w.i)

/-- `IntegrationWorkspace::sum_results` (lines 205-218). -/
def IntegrationWorkspace.sum_results (w : IntegrationWorkspace) : ℚ :=
  ((List.range w.size).map w.rlist).sum

/-- The first `while` of `qpsrt` (lines 162-165):
`while i_nrmax > 0 && errmax > elist[order[i_nrmax - 1]]
   { order[i_nrmax] = order[i_nrmax - 1]; i_nrmax -= 1; }`.
The recursion is on `i_nrmax` itself, which the loop decrements. -/
def slideLoop (elist : ℕ → ℚ) (errmax : ℚ) :
    ℕ → (ℕ → ℕ) → ((ℕ → ℕ) × ℕ)
  | 0, order => (order, 0)
  | j + 1, order =>
    if errmax > elist (order j) then
      slideLoop elist errmax j (Function.update order (j + 1) (order j))
    else (order, j + 1)

/-- The top-down insertion `while` of `qpsrt` (lines 179-182):
`while i < top && errmax < elist[order[i]] { order[i-1] = order[i]; i += 1 }`.
The fuel is `top - i`, so fuel 0 is exactly the exit `¬(i < top)`. -/
def insertMaxLoop (elist : ℕ → ℚ) (errmax : ℚ) :
    ℕ → (ℕ → ℕ) → ℕ → ((ℕ → ℕ) × ℕ)
  | 0, order, i => (order, i)
  | fuel + 1, order, i =>
    if errmax < elist (order i) then
      insertMaxLoop elist errmax fuel
        (Function.update order (i - 1) (order i)) (i + 1)
    else (order, i)

/-- The bottom-up insertion `while` of `qpsrt` (lines 190-193):
`while k > i - 2 && errmin >= elist[order[k]] { order[k+1] = order[k]; k -= 1 }`
where `i - 2` is u64 arithmetic (passed here as `ibound`).  The recursion is
on `k` itself, which the loop decrements; at `k = 0` the guard `0 > ibound`
is false, matching the source. -/
def insertMinLoop (elist : ℕ → ℚ) (errmin : ℚ) (ibound : ℕ) :
    ℕ → (ℕ → ℕ) → ((ℕ → ℕ) × ℕ)
  | 0, order => (order, 0)
  | k + 1, order =>
    if k + 1 > ibound ∧ errmin ≥ elist (order (k + 1)) then
      insertMinLoop elist errmin ibound k
        (Function.update order (k + 2) (order (k + 1)))
    else (order, k + 1)

/-- The in-bounds data flow of `IntegrationWorkspace::qpsrt`
(lines 138-203): the three fields the routine writes, (order, i, nrmax),
with every array taken as a total function.  All u64 subtractions
(`size - 1`, `limit - last + 1`, `i - 2`) use `u64sub`; in particular
`i - 2` wraps to 2^64 - 1 when `i = 1`, exactly as in the source.  This
total model ignores the lengths of the routine's local CVec views (`order`
of length `nrmax + 1`, line 142; `elist` of length `i_maxerr + 1`,
line 157), whose bounds checks the source's slice accesses do perform:
`qpsrtChecked` below models those checks, and on every state the drivers
reach (`nrmax = 0`) the real routine fails index-out-of-bounds before
completing, so the states this total model computes are not produced by
the program.  It is kept only as the data-flow component the total loop
embeddings (`qagsStep` and the drivers built on it) compose; no claim is
settled on a state it computes past a failing bounds check. -/
def qpsrtCore (w : IntegrationWorkspace) : (ℕ → ℕ) × ℕ × ℕ :=
  let last := u64sub w.size 1
  let limit := w.limit
  let i_maxerr := w.order w.nrmax
  if last < 2 then
    (Function.update (Function.update w.order 0 0) 1 1, i_maxerr, w.nrmax)
  else
    let errmax := w.elist i_maxerr
    let p1 := slideLoop w.elist errmax w.nrmax w.order
    let order1 := p1.1
    let i_nrmax := p1.2
    let top := if last < limit / 2 + 2 then last else u64sub limit last + 1
    let p2 := insertMaxLoop w.elist errmax (top - (i_nrmax + 1)) order1 (i_nrmax + 1)
    let i2 := p2.2
    let order2 := Function.update p2.1 (i2 - 1) i_maxerr
    let errmin := w.elist last
    let p3 := insertMinLoop w.elist errmin (u64sub i2 2) (top - 1) order2
    let order3 := Function.update p3.1 (p3.2 + 1) last
    (order3, order3 i_nrmax, i_nrmax)

/-- `IntegrationWorkspace::qpsrt` (lines 138-203) as the in-bounds total
model: writes back the fields computed by `qpsrtCore`; everything else is
untouched.  See `qpsrtChecked` for the bounds-checked behaviour of the
same routine. -/
def IntegrationWorkspace.qpsrt (w : IntegrationWorkspace) : IntegrationWorkspace :=
  let p := qpsrtCore w
  { w with order := p.1, i := p.2.1, nrmax := p.2.2 }

/-- The first `while` of `qpsrt` (lines 162-165) with the source's CVec
bounds checks: the guard reads `order[i_nrmax - 1]` through the `order`
view of length `olen = nrmax + 1` and `elist[order[i_nrmax - 1]]` through
the `elist` view of length `elen = i_maxerr + 1`, and the body writes
`order[i_nrmax]`.  Pre-1.0 Rust slice indexing is bounds-checked, so an
index at or past the view length fails the task: `none`. -/
def slideLoopChecked (elist : ℕ → ℚ) (olen elen : ℕ) (errmax : ℚ) :
    ℕ → (ℕ → ℕ) → Option ((ℕ → ℕ) × ℕ)
  | 0, order => some (order, 0)
  | j + 1, order =>
    if j < olen then
      if order j < elen then
        if errmax > elist (order j) then
          if j + 1 < olen then
            slideLoopChecked elist olen elen errmax j
              (Function.update order (j + 1) (order j))
          else none
        else some (order, j + 1)
      else none
    else none

/-- The top-down insertion `while` of `qpsrt` (lines 179-182) with the
source's CVec bounds checks.  The fuel is `top - i`, so fuel 0 is exactly
the exit `¬(i < top)` and, the guard short-circuiting, positive fuel is
exactly when its array reads `order[i]` (bound `olen`) and
`elist[order[i]]` (bound `elen`) are evaluated; the body writes
`order[i - 1]`. -/
def insertMaxLoopChecked (elist : ℕ → ℚ) (olen elen : ℕ) (errmax : ℚ) :
    ℕ → (ℕ → ℕ) → ℕ → Option ((ℕ → ℕ) × ℕ)
  | 0, order, i => some (order, i)
  | fuel + 1, order, i =>
    if i < olen then
      if order i < elen then
        if errmax < elist (order i) then
          if i - 1 < olen then
            insertMaxLoopChecked elist olen elen errmax fuel
              (Function.update order (i - 1) (order i)) (i + 1)
          else none
        else some (order, i)
      else none
    else none

/-- The bottom-up insertion `while` of `qpsrt` (lines 190-193) with the
source's CVec bounds checks: when the wrap-guard `k > i - 2` (passed here
as `ibound = u64sub i 2`) holds, the guard reads `order[k]` (bound `olen`)
and `elist[order[k]]` (bound `elen`), and the body writes `order[k + 1]`.
The recursion is on `k`, which the loop decrements; at `k = 0` the guard
`0 > ibound` is false, matching the source. -/
def insertMinLoopChecked (elist : ℕ → ℚ) (olen elen : ℕ) (errmin : ℚ)
    (ibound : ℕ) : ℕ → (ℕ → ℕ) → Option ((ℕ → ℕ) × ℕ)
  | 0, order => some (order, 0)
  | k + 1, order =>
    if k + 1 > ibound then
      if k + 1 < olen then
        if order (k + 1) < elen then
          if errmin ≥ elist (order (k + 1)) then
            if k + 2 < olen then
              insertMinLoopChecked elist olen elen errmin ibound k
                (Function.update order (k + 2) (order (k + 1)))
            else none
          else some (order, k + 1)
        else none
      else none
    else some (order, k + 1)

/-- The `top` boundary computed at `qpsrt` lines 170-174:
`last` when `last < limit/2 + 2`, and the u64 `limit - last + 1`
otherwise. -/
def qpsrtTop (w : IntegrationWorkspace) : ℕ :=
  if u64sub w.size 1 < w.limit / 2 + 2 then u64sub w.size 1
  else u64sub w.limit (u64sub w.size 1) + 1

/-- `qpsrt` lines 196-202, the continuation past the bottom-up insertion:
write `order[k + 1] = last` (line 196, check `k + 1 < olen`), read the new
`i_maxerr = order[i_nrmax]` (line 199, check `i_nrmax < olen`) and perform
the write-backs of lines 201-202. -/
def qpsrtCheckedAfterMin (w : IntegrationWorkspace)
    (olen last i_nrmax1 : ℕ) :
    Option ((ℕ → ℕ) × ℕ) → Option IntegrationWorkspace
  | none => none
  | some p3 =>
    if p3.2 + 1 < olen then
      if i_nrmax1 < olen then
        some { w with
          order := Function.update p3.1 (p3.2 + 1) last,
          i := Function.update p3.1 (p3.2 + 1) last i_nrmax1,
          nrmax := i_nrmax1 }
      else none
    else none

/-- `qpsrt` lines 184-196, the continuation past the top-down insertion:
write `order[i - 1] = i_maxerr` (line 184, check `i - 1 < olen`), read
`errmin = elist[last]` (line 187, check `last < elen`) and run the
bottom-up insertion from `k = top - 1` with wrap-guard bound
`i - 2` in u64 (lines 190-193). -/
def qpsrtCheckedAfterMax (w : IntegrationWorkspace)
    (olen elen i_maxerr last top i_nrmax1 : ℕ) :
    Option ((ℕ → ℕ) × ℕ) → Option IntegrationWorkspace
  | none => none
  | some p2 =>
    if p2.2 - 1 < olen then
      if last < elen then
        qpsrtCheckedAfterMin w olen last i_nrmax1
          (insertMinLoopChecked w.elist olen elen (w.elist last)
            (u64sub p2.2 2) (top - 1)
            (Function.update p2.1 (p2.2 - 1) i_maxerr))
      else none
    else none

/-- `qpsrt` lines 177-182, the continuation past the slide loop: start the
top-down insertion at `i = i_nrmax + 1` (the slid `i_nrmax` being `p1.2`)
with fuel `top - i`. -/
def qpsrtCheckedAfterSlide (w : IntegrationWorkspace)
    (olen elen i_maxerr last top : ℕ) :
    Option ((ℕ → ℕ) × ℕ) → Option IntegrationWorkspace
  | none => none
  | some p1 =>
    qpsrtCheckedAfterMax w olen elen i_maxerr last top p1.2
      (insertMaxLoopChecked w.elist olen elen (w.elist i_maxerr)
        (top - (p1.2 + 1)) p1.1 (p1.2 + 1))

/-- `IntegrationWorkspace::qpsrt` (lines 138-203) with the source's CVec
view bounds: the `order` view is created with length `nrmax + 1`
(line 142) and the `elist` view with length `i_maxerr + 1` (line 157,
`i_maxerr = order[nrmax]`), and every slice access through them is
bounds-checked, an out-of-range index failing the task (`none`).  The
checked accesses, in source order: read `order[i_nrmax]` (line 146); on
the `last < 2` branch write `order[0]` and `order[1]` (lines 151-152);
otherwise read `elist[i_maxerr]` (line 158), run the slide loop
(lines 162-165) and continue past it (`qpsrtCheckedAfterSlide` and the
further continuations).  The source's `let` locals are inlined or passed
along: `olen = nrmax + 1`, `elen = order[nrmax] + 1`,
`errmax = elist[order[nrmax]]`, `last = u64sub size 1`,
`top = qpsrtTop`. -/
def qpsrtChecked (w : IntegrationWorkspace) : Option IntegrationWorkspace :=
  if w.nrmax < w.nrmax + 1 then
    if u64sub w.size 1 < 2 then
      if 0 < w.nrmax + 1 then
        if 1 < w.nrmax + 1 then
          some { w with
            order := Function.update (Function.update w.order 0 0) 1 1,
            i := w.order w.nrmax }
        else none
      else none
    else
      if w.order w.nrmax < w.order w.nrmax + 1 then
        qpsrtCheckedAfterSlide w (w.nrmax + 1) (w.order w.nrmax + 1)
          (w.order w.nrmax) (u64sub w.size 1) (qpsrtTop w)
          (slideLoopChecked w.elist (w.nrmax + 1) (w.order w.nrmax + 1)
            (w.elist (w.order w.nrmax)) w.nrmax w.order)
      else none
  else none

/-- The write phase of `IntegrationWorkspace::update` (lines 241-288): the
interval writes, the size increment and the `maximum_level` raise.  Every
access of this phase is within the local CVec views of length
`max(i, size) + 1` created at lines 243-252 (the written indices are
exactly `i` and `size`), so this phase of the source always completes; the
routine then calls `qpsrt` (line 290). -/
def updateWrites (w : IntegrationWorkspace)
    (a1 b1 area1 error1 a2 b2 area2 error2 : ℚ) : IntegrationWorkspace :=
  let i_max := w.i
  let i_new := w.size
  let new_level := w.level i_max + 1
  let w1 :=
    if error2 > error1 then
      -- blist[maxerr] is already == b2
      { w with
        alist := Function.update (Function.update w.alist i_max a2) i_new a1,
        blist := Function.update w.blist i_new b1,
        rlist := Function.update (Function.update w.rlist i_max area2) i_new area1,
        elist := Function.update (Function.update w.elist i_max error2) i_new error1,
        level := Function.update (Function.update w.level i_max new_level) i_new new_level }
    else
      -- alist[maxerr] is already == a1
      { w with
        alist := Function.update w.alist i_new a2,
        blist := Function.update (Function.update w.blist i_max b1) i_new b2,
        rlist := Function.update (Function.update w.rlist i_max area1) i_new area2,
        elist := Function.update (Function.update w.elist i_max error1) i_new error2,
        level := Function.update (Function.update w.level i_max new_level) i_new new_level }
  { w1 with
    size := w.size + 1,
    maximum_level :=
      if new_level > w.maximum_level then new_level else w.maximum_level }

/-- `IntegrationWorkspace::update` (lines 237-292): the write phase
followed by the `qpsrt` call of line 290, with `qpsrt` taken as the
in-bounds (total-function) model.  The faithful bounds-checked behaviour
of the same call is `updateChecked` below: on every state the drivers
reach, the real `qpsrt` call fails index-out-of-bounds, so this total
composition continues past a point where the program has died. -/
def IntegrationWorkspace.update (w : IntegrationWorkspace)
    (a1 b1 area1 error1 a2 b2 area2 error2 : ℚ) : IntegrationWorkspace :=
  (updateWrites w a1 b1 area1 error1 a2 b2 area2 error2).qpsrt

/-- `IntegrationWorkspace::update` (lines 237-292) with the `qpsrt` call of
line 290 taken bounds-checked: the write phase always completes (its views
cover the indices it touches), and the result of the whole call is that of
the `qpsrt` bounds checks — `none` when `qpsrt` fails the task. -/
def updateChecked (w : IntegrationWorkspace)
    (a1 b1 area1 error1 a2 b2 area2 error2 : ℚ) :
    Option IntegrationWorkspace :=
  qpsrtChecked (updateWrites w a1 b1 area1 error1 a2 b2 area2 error2)

/-- Inner scan of `sort_results` (lines 119-127): over `count` positions
starting at `j`, track the elist index and value of the largest error. -/
def sortScan (elist : ℕ → ℚ) (order : ℕ → ℕ) :
    ℕ → ℕ → (ℕ × ℚ) → (ℕ × ℚ)
  | 0, _, st => st
  | c + 1, j, st =>
    let i2 := order j
    let e2 := elist i2
    sortScan elist order c (j + 1) (if e2 ≥ st.2 then (i2, e2) else st)

/-- Outer loop of `sort_results` (lines 114-133); `c` is the remaining
count `nint - i`.  Note the source swaps positions `i` and `i_max`, where
`i_max` is an elist index, exactly as written at lines 129-132. -/
def sortOuter (elist : ℕ → ℚ) (nint : ℕ) :
    ℕ → ℕ → (ℕ → ℕ) → (ℕ → ℕ)
  | 0, _, order => order
  | c + 1, i, order =>
    let i1 := order i
    let e1 := elist i1
    let p := sortScan elist order (nint - (i + 1)) (i + 1) (i1, e1)
    let i_max := p.1
    let order2 :=
      if i_max ≠ i1 then
        Function.update (Function.update order i (order i_max)) i_max i1
      else order
    sortOuter elist nint c (i + 1) order2

/-- `IntegrationWorkspace::sort_results` (lines 106-136). -/
def IntegrationWorkspace.sort_results (w : IntegrationWorkspace) :
    IntegrationWorkspace :=
  let nint := w.size
  let order2 := sortOuter w.elist nint nint 0 w.order
  { w with order := order2, i := order2 0 }

/-- `append_interval` (lines 1355-1372). -/
def append_interval (w : IntegrationWorkspace) (a1 b1 area1 error1 : ℚ) :
    IntegrationWorkspace :=
  let i_new := w.size
  { w with
    alist := Function.update w.alist i_new a1,
    blist := Function.update w.blist i_new b1,
    rlist := Function.update w.rlist i_new area1,
    elist := Function.update w.elist i_new error1,
    order := Function.update w.order i_new i_new,
    level := Function.update w.level i_new 0,
    size := w.size + 1 }

/-- The `for k in range(id, jupbnd + 1)` loop of `increase_nrmax`
(lines 657-665); fuel is the iteration count `jupbnd + 1 - id`.
Returns (found, nrmax, i). -/
def increaseLoop (order : ℕ → ℕ) (level : ℕ → ℕ) (maxlev : ℕ) :
    ℕ → ℕ → ℕ → (Bool × ℕ × ℕ)
  | 0, nrmax, i => (false, nrmax, i)
  | c + 1, nrmax, _ =>
    let i_max := order nrmax
    if level i_max < maxlev then (true, nrmax, i_max)
    else increaseLoop order level maxlev c (nrmax + 1) i_max

/-- `increase_nrmax` (lines 640-667). -/
def increase_nrmax (w : IntegrationWorkspace) : Bool × IntegrationWorkspace :=
  let limit := w.limit
  let last := u64sub w.size 1
  let jupbnd := if last > 1 + limit / 2 then u64sub (limit + 1) last else last
  let r := increaseLoop w.order w.level w.maximum_level
    (jupbnd + 1 - w.nrmax) w.nrmax w.i
  (r.1, { w with nrmax := r.2.1, i := r.2.2 })

/-- `large_interval` (lines 669-678). -/
def large_interval (w : IntegrationWorkspace) : Bool :=
  decide (w.level w.i < w.maximum_level)

/-- `reset_nrmax` (lines 680-683). -/
def reset_nrmax (w : IntegrationWorkspace) : IntegrationWorkspace :=
  { w with nrmax := 0, i := w.order 0 }

/-- `test_positivity` (lines 636-638). -/
def test_positivity (result resabs : ℚ) : Bool :=
  decide (fabsf64 result ≥ (1 - 50 * DBL_EPSILON) * resabs)

/-- Modelled from the spec: `::util::subinterval_too_small` is not in src/.
Spec (section 4.3): the singularity flag fires when "both child intervals
collapse to the same floating-point representable boundary as the parent
(no further bisection possible)"; over exact rationals this is the
coincidence of the three boundary points. -/
def subinterval_too_small (a1 a2 b2 : ℚ) : Bool :=
  decide (a1 = a2 ∧ a2 = b2)

/-- `return_error` (lines 692-726); `rgsl_error!` (not in src/) is
modelled from the spec (section 7: every status is reported to the caller)
as producing the stated status value. -/
def return_error (t_error_type : ℕ) : Value :=
  let error_type := if t_error_type > 2 then t_error_type - 1 else t_error_type
  match error_type with
  | 0 => Value.Success
  | 1 => Value.MaxIter
  | 2 => Value.Round
  | 3 => Value.Sing
  | 4 => Value.Round
  | 5 => Value.Round
  | _ => Value.Failed

/-- `compute_result` (lines 685-690). -/
def compute_result (w : IntegrationWorkspace) (errsum : ℚ) (error_type : ℕ) :
    ℚ × ℚ × Value :=
  (w.sum_results, errsum, return_error error_type)

/-- The state behind `ffi::extrapolation_table` (struct not in src/; a
`size_t n`, a `double rlist2[52]`, a `size_t nres` and a `double res3la[3]`,
as used by the source).  The fixed-size arrays are embedded as total
functions. -/
structure extrapolation_table where
  n : ℕ
  rlist2 : ℕ → ℚ
  nres : ℕ
  res3la : ℕ → ℚ

/-- `::std::mem::zeroed()` for the table (lines 750, 1029). -/
def zeroTable : extrapolation_table :=
  { n := 0, rlist2 := fun _ => 0, nres := 0, res3la := fun _ => 0 }

/-- `initialise_table` (lines 489-492). -/
def initialise_table (t : extrapolation_table) : extrapolation_table :=
  { t with n := 0, nres := 0 }

/-- `append_table` (lines 494-499). -/
def append_table (t : extrapolation_table) (y : ℚ) : extrapolation_table :=
  { t with rlist2 := Function.update t.rlist2 t.n y, n := t.n + 1 }

/-- Exit of the epsilon-algorithm main loop of `intern_qelg`:
`conv` is the in-loop machine-accuracy `return` (lines 543-550), `trunc`
the `break` with `n_final = 2*i` (lines 559-562 and 568-571), `comp` the
normal completion of all `newelm` passes. -/
inductive QelgExit where
  | conv (result abserr : ℚ)
  | trunc (epstab : ℕ → ℚ) (result abserr : ℚ) (n_final : ℕ)
  | comp (epstab : ℕ → ℚ) (result abserr : ℚ)

/-- Main loop of `intern_qelg` (lines 529-586), a `for i in range(0, newelm)`
embedded with fuel `newelm - i`; carries the local `epstab` copy and the
running best (result, abserr).  All index subtractions stay nonnegative
because `2*i + 2 ≤ n` throughout the loop. -/
def qelgLoop (n : ℕ) : ℕ → ℕ → (ℕ → ℚ) → ℚ → ℚ → QelgExit
  | 0, _, epstab, result, abserr => QelgExit.comp epstab result abserr
  | c + 1, i, epstab, result, abserr =>
    let res0 := epstab (n - 2 * i + 2)
    let e0 := epstab (n - 2 * i - 2)
    let e1 := epstab (n - 2 * i - 1)
    let e2 := res0
    let e1abs := fabsf64 (e1)
    let delta2 := e2 - e1
    let err2 := fabsf64 (delta2)
    let tol2 := fmax (fabsf64 e2) e1abs * DBL_EPSILON
    let delta3 := e1 - e0
    let err3 := fabsf64 (delta3)
    let tol3 := fmax e1abs (fabsf64 e0) * DBL_EPSILON
    if err2 ≤ tol2 ∧ err3 ≤ tol3 then
      QelgExit.conv res0 (fmax (err2 + err3) (5 * DBL_EPSILON * fabsf64 (res0)))
    else
      let e3 := epstab (n - 2 * i)
      let epstab1 := Function.update epstab (n - 2 * i) e1
      let delta1 := e1 - e3
      let err1 := fabsf64 (delta1)
      let tol1 := fmax e1abs (fabsf64 e3) * DBL_EPSILON
      if err1 ≤ tol1 ∨ err2 ≤ tol2 ∨ err3 ≤ tol3 then
        QelgExit.trunc epstab1 result abserr (2 * i)
      else
        let ss := (1 / delta1 + 1 / delta2) - 1 / delta3
        if fabsf64 (ss * e1) ≤ 1 / 10000 then
          QelgExit.trunc epstab1 result abserr (2 * i)
        else
          let res1 := e1 + 1 / ss
          let epstab2 := Function.update epstab1 (n - 2 * i) res1
          let error := err2 + fabsf64 (res1 - e2) + err3
          if error ≤ abserr then qelgLoop n c (i + 1) epstab2 res1 error
          else qelgLoop n c (i + 1) epstab2 result abserr

/-- The odd-parity shift loop of `intern_qelg` (lines 597-600):
`for i in range(0, newelm + 1) { epstab[1 + i*2] = epstab[i*2 + 3] }`. -/
def qelgShiftOdd : ℕ → ℕ → (ℕ → ℚ) → (ℕ → ℚ)
  | 0, _, ep => ep
  | c + 1, i, ep =>
    qelgShiftOdd c (i + 1) (Function.update ep (1 + i * 2) (ep (i * 2 + 3)))

/-- The even-parity shift loop of `intern_qelg` (lines 601-605). -/
def qelgShiftEven : ℕ → ℕ → (ℕ → ℚ) → (ℕ → ℚ)
  | 0, _, ep => ep
  | c + 1, i, ep =>
    qelgShiftEven c (i + 1) (Function.update ep (i * 2) (ep (i * 2 + 2)))

/-- The compaction loop of `intern_qelg` (lines 607-611):
`for i in range(0, n_final + 1) { epstab[i] = epstab[n_orig - n_final + i] }`
(`d` is `n_orig - n_final`, nonnegative on every path that reaches it). -/
def qelgCompact (d : ℕ) : ℕ → ℕ → (ℕ → ℚ) → (ℕ → ℚ)
  | 0, _, ep => ep
  | c + 1, i, ep => qelgCompact d c (i + 1) (Function.update ep i (ep (d + i)))

/-- Tail of `intern_qelg` after the main loop (lines 588-633).  The writes
to the local `epstab` and `res3la` array copies are performed and then
discarded, because the source copies both arrays by value out of the table
(lines 502-503, Rust fixed-size arrays are Copy) and never writes them
back; only the scalar fields `n` and `nres` persist (lines 613, 631). -/
def qelgShiftAndFinish (t : extrapolation_table) (n_orig newelm nres_orig : ℕ)
    (ep : ℕ → ℚ) (result abserr : ℚ) (n_final0 : ℕ) :
    extrapolation_table × ℚ × ℚ :=
  let limexp : ℕ := 49
  let n_final := if n_final0 = limexp then 2 * (limexp / 2) else n_final0
  let ep1 := if n_orig % 2 = 1 then qelgShiftOdd (newelm + 1) 0 ep
             else qelgShiftEven (newelm + 1) 0 ep
  let _ep2 := if n_orig ≠ n_final then
                qelgCompact (n_orig - n_final) (n_final + 1) 0 ep1
              else ep1
  let abserr2 := if nres_orig < 3 then DBL_MAX
    else fabsf64 (result - t.res3la 2) + fabsf64 (result - t.res3la 1) + fabsf64 (result - t.res3la 0)
  ({ t with n := n_final + 1, nres := nres_orig + 1 },
   result, fmax abserr2 (5 * DBL_EPSILON * fabsf64 (result)))

/-- The main-loop call of `intern_qelg` with its initial state (lines
506-529): `epstab[n+2] = epstab[n]; epstab[n] = DBL_MAX;` then the
triangular recurrence starting from `*result = current`,
`*abserr = DBL_MAX`, where `n = table.n - 1` (u64). -/
def qelgMain (t : extrapolation_table) : QelgExit :=
  qelgLoop (u64sub t.n 1) (u64sub t.n 1 / 2) 0
    (Function.update
      (Function.update t.rlist2 (u64sub t.n 1 + 2) (t.rlist2 (u64sub t.n 1)))
      (u64sub t.n 1) DBL_MAX)
    (t.rlist2 (u64sub t.n 1)) DBL_MAX

/-- `intern_qelg` (lines 501-634), with the source's locals written out:
`n = table.n - 1`, `current = epstab[n]`, `relative = 5*eps*|current|`,
`newelm = n / 2`, `n_orig = n`, `nres_orig = table.nres`.  Note the two
early `return`s (the degenerate `n < 2` case at lines 520-524 and the
in-loop convergence case at lines 543-550) leave the table untouched:
they occur before the writes to `table.n` and `table.nres`. -/
def intern_qelg (t : extrapolation_table) : extrapolation_table × ℚ × ℚ :=
  if u64sub t.n 1 < 2 then
    (t, t.rlist2 (u64sub t.n 1),
     fmax DBL_MAX (5 * DBL_EPSILON * fabsf64 (t.rlist2 (u64sub t.n 1))))
  else
    match qelgMain t with
    | QelgExit.conv result abserr => (t, result, abserr)
    | QelgExit.trunc ep result abserr nf =>
      qelgShiftAndFinish t (u64sub t.n 1) (u64sub t.n 1 / 2) t.nres
        ep result abserr nf
    | QelgExit.comp ep result abserr =>
      qelgShiftAndFinish t (u64sub t.n 1) (u64sub t.n 1 / 2) t.nres
        ep result abserr (u64sub t.n 1)

/-- Decides whether `intern_qelg` takes one of its two early-return paths
(the `n < 2` degenerate case or the in-loop machine-accuracy convergence),
mirroring the scrutinees of `intern_qelg` exactly. -/
def qelgEarlyExit (t : extrapolation_table) : Bool :=
  if u64sub t.n 1 < 2 then true
  else
    match qelgMain t with
    | QelgExit.conv _ _ => true
    | _ => false

/-- A quadrature kernel `q(f, arg, a, b) -> (result, abserr, resabs, resasc)`
(the `::integration::qk*` rules are not in src/ and are treated per the
spec as a pluggable pure function of the interval; the integrand and its
argument are folded into the kernel value). -/
abbrev Kernel := ℚ → ℚ → ℚ × ℚ × ℚ × ℚ

/-- Loop state of `intern_qag` (lines 402-405): the accumulators and
counters live across iterations; note `iteration` is declared immutable
(`let iteration = 1u64;`, line 405) and the loop never calls
`IntegrationWorkspace::update`, so the workspace is also loop-invariant. -/
structure QagState where
  ws : IntegrationWorkspace
  area : ℚ
  errsum : ℚ
  tolerance : ℚ
  roundoff_type1 : ℕ
  roundoff_type2 : ℕ
  error_type : ℕ
  iteration : ℕ

/-- One pass of the `loop` body of `intern_qag` (lines 407-463). -/
def qagBody (q : Kernel) (epsabs epsrel : ℚ) (s : QagState) : QagState :=
  let r := s.ws.retrieve
  let a_i := r.1
  let b_i := r.2.1
  let r_i := r.2.2.1
  let e_i := r.2.2.2
  let a1 := a_i
  let b1 := (1 / 2 : ℚ) * (a_i + b_i)
  let a2 := b1
  let b2 := b_i
  let k1 := q a1 b1
  let area1 := k1.1
  let error1 := k1.2.1
  let resasc1 := k1.2.2.2
  let k2 := q a2 b2
  let area2 := k2.1
  let error2 := k2.2.1
  let resasc2 := k2.2.2.2
  let area12 := area1 + area2
  let error12 := error1 + error2
  let errsum2 := s.errsum + (error12 - e_i)
  let area3 := s.area + (area12 - r_i)
  let rcond := resasc1 ≠ error1 ∧ resasc2 ≠ error2
  let delta := r_i - area12
  let rt1 :=
    if rcond ∧ fabsf64 (delta) ≤ 1 / 100000 * fabsf64 (area12) ∧ error12 ≥ 99 / 100 * e_i then
      s.roundoff_type1 + 1
    else s.roundoff_type1
  let rt2 :=
    if rcond ∧ s.iteration ≥ 10 ∧ error12 > e_i then s.roundoff_type2 + 1
    else s.roundoff_type2
  let tol2 := fmax epsabs (epsrel * fabsf64 (area3))
  let et1 :=
    if errsum2 > tol2 ∧ (rt1 ≥ 6 ∨ rt2 ≥ 20) then 2 else s.error_type
  let et2 :=
    if errsum2 > tol2 ∧ subinterval_too_small a1 a2 b2 = true then 3 else et1
  { s with
    area := area3, errsum := errsum2, tolerance := tol2,
    roundoff_type1 := rt1, roundoff_type2 := rt2, error_type := et2 }

/-- Epilogue of `intern_qag` after the loop (lines 469-486). -/
def qagEpilogue (limit : ℕ) (s : QagState) : ℚ × ℚ × Value :=
  let result := s.ws.sum_results
  let abserr := s.errsum
  if s.errsum ≤ s.tolerance then (result, abserr, Value.Success)
  else if s.error_type = 2 then (result, abserr, Value.Round)
  else if s.error_type = 3 then (result, abserr, Value.Sing)
  else if s.iteration = limit then (result, abserr, Value.MaxIter)
  else (result, abserr, Value.Failed)

/-- The `loop { body; if iteration < limit && error_type == 0 &&
errsum > tolerance {} else { break } }` of `intern_qag` (lines 407-468),
with fuel; `none` means the fuel ran out with the loop still spinning. -/
def qagLoop (q : Kernel) (epsabs epsrel : ℚ) (limit : ℕ) :
    ℕ → QagState → Option (ℚ × ℚ × Value)
  | 0, _ => none
  | fuel + 1, s =>
    let s2 := qagBody q epsabs epsrel s
    if s2.iteration < limit ∧ s2.error_type = 0 ∧ s2.errsum > s2.tolerance then
      qagLoop q epsabs epsrel limit fuel s2
    else some (qagEpilogue limit s2)

/-- `intern_qag` (lines 350-487).  `rgsl_error!` is not in src/ and is
modelled from the spec (section 7) as returning the stated status with the
current best (result, abserr).  The kernel is pure, so the source's single
`q(f, arg, a, b)` call (line 375) is denoted here by the repeated
expression `q a b`: `(q a b).1` is `result0`, `(q a b).2.1` is `abserr0`,
`(q a b).2.2.1` is `resabs0` and `(q a b).2.2.2` is `resasc0`. -/
def intern_qag (q : Kernel) (a b epsabs epsrel : ℚ) (limit : ℕ)
    (f_w : IntegrationWorkspace) (fuel : ℕ) : Option (ℚ × ℚ × Value) :=
  if limit > (f_w.initialise a b).limit then some (0, 0, Value.Inval)
  else if epsabs ≤ 0 ∧ (epsrel < 50 * DBL_EPSILON ∨ epsrel < 5 / 10 ^ 29) then
    some (0, 0, Value.BadTol)
  else if (q a b).2.1 ≤ 50 * DBL_EPSILON * (q a b).2.2.1 ∧
      (q a b).2.1 > fmax epsabs (epsrel * fabsf64 ((q a b).1)) then
    some ((q a b).1, (q a b).2.1, Value.Round)
  else if ((q a b).2.1 ≤ fmax epsabs (epsrel * fabsf64 ((q a b).1)) ∧
      (q a b).2.1 ≠ (q a b).2.2.2) ∨ (q a b).2.1 = 0 then
    some ((q a b).1, (q a b).2.1, Value.Success)
  else if limit = 1 then some ((q a b).1, (q a b).2.1, Value.MaxIter)
  else
    qagLoop q epsabs epsrel limit fuel
      { ws := (f_w.initialise a b).set_initial_result (q a b).1 (q a b).2.1,
        area := (q a b).1, errsum := (q a b).2.1,
        tolerance := fmax epsabs (epsrel * fabsf64 ((q a b).1)),
        roundoff_type1 := 0, roundoff_type2 := 0,
        error_type := 0, iteration := 1 }

/-- Call context shared by the extrapolated drivers. -/
structure QagsCtx where
  q : Kernel
  epsabs : ℚ
  epsrel : ℚ
  limit : ℕ

/-- Loop state of `intern_qags` (lines 730-803); also used as the loop
state of `intern_qagp`, whose loop carries the same variables. -/
structure QagsState where
  ws : IntegrationWorkspace
  table : extrapolation_table
  area : ℚ
  errsum : ℚ
  tolerance : ℚ
  ertest : ℚ
  error_over_large_intervals : ℚ
  reseps : ℚ
  abseps : ℚ
  correc : ℚ
  ktmin : ℕ
  roundoff_type1 : ℕ
  roundoff_type2 : ℕ
  roundoff_type3 : ℕ
  error_type : ℕ
  error_type2 : ℕ
  extrapolate : ℕ
  disallow_extrapolation : ℕ
  res_ext : ℚ
  err_ext : ℚ
  positive_integrand : Bool
  resabs0 : ℚ
  iteration : ℕ

/-- Outcome of one pass of the `intern_qags` loop body: an in-loop
`return` (line 884), a `break`, or the bottom of the loop / a `continue`. -/
inductive QagsStep where
  | ret (out : ℚ × ℚ × Value) (s : QagsState)
  | brk (s : QagsState)
  | cont (s : QagsState)

/-- One pass of the `loop` body of `intern_qags` (lines 805-969).  The
in-place mutations of the source are rendered in single-assignment style:
each mutable local gets one `let` per assignment site, with conditional
assignments becoming per-field conditionals. -/
def qagsStep (c : QagsCtx) (s : QagsState) : QagsStep :=
  let r := s.ws.retrieve
  let a_i := r.1
  let b_i := r.2.1
  let r_i := r.2.2.1
  let e_i := r.2.2.2
  let current_level := s.ws.level s.ws.i + 1
  let a1 := a_i
  let b1 := (1 / 2 : ℚ) * (a_i + b_i)
  let a2 := b1
  let b2 := b_i
  let iter2 := s.iteration + 1
  let k1 := c.q a1 b1
  let area1 := k1.1
  let error1 := k1.2.1
  let resasc1 := k1.2.2.2
  let k2 := c.q a2 b2
  let area2 := k2.1
  let error2 := k2.2.1
  let resasc2 := k2.2.2.2
  let area12 := area1 + area2
  let error12 := error1 + error2
  let last_e_i := e_i
  let errsum2 := s.errsum + error12 - e_i
  let area3 := s.area + area12 - r_i
  let tol2 := fmax c.epsabs (c.epsrel * fabsf64 (area3))
  let rcond := resasc1 ≠ error1 ∧ resasc2 ≠ error2
  let delta := r_i - area12
  let rsmall := fabsf64 (delta) ≤ 1 / 100000 * fabsf64 (area12) ∧ error12 ≥ 99 / 100 * e_i
  let rt1 := if rcond ∧ rsmall ∧ s.extrapolate = 0 then s.roundoff_type1 + 1
    else s.roundoff_type1
  let rt2 := if rcond ∧ rsmall ∧ s.extrapolate ≠ 0 then s.roundoff_type2 + 1
    else s.roundoff_type2
  let rt3 := if rcond ∧ iter2 > 10 ∧ error12 > e_i then s.roundoff_type3 + 1
    else s.roundoff_type3
  let et1 := if rt1 + rt2 ≥ 10 ∨ rt3 ≥ 20 then 2 else s.error_type
  let et2b := if rt2 ≥ 5 then 1 else s.error_type2
  let et := if subinterval_too_small a1 a2 b2 = true then 4 else et1
  let ws2 := s.ws.update a1 b1 area1 error1 a2 b2 area2 error2
  let sBase :=
    { s with
      ws := ws2, area := area3, errsum := errsum2, tolerance := tol2,
      roundoff_type1 := rt1, roundoff_type2 := rt2, roundoff_type3 := rt3,
      error_type := et, error_type2 := et2b, iteration := iter2 }
  if errsum2 ≤ tol2 then QagsStep.ret (compute_result ws2 errsum2 et) sBase
  else if et ≠ 0 then QagsStep.brk sBase
  else if iter2 ≥ u64sub c.limit 1 then
    QagsStep.brk { sBase with error_type := 1 }
  else if iter2 = 2 then
    QagsStep.cont { sBase with
      error_over_large_intervals := errsum2,
      ertest := tol2, table := append_table s.table area3 }
  else if s.disallow_extrapolation ≠ 0 then QagsStep.cont sBase
  else
    let eoli1 := s.error_over_large_intervals - last_e_i
    let eoli2 := if current_level < ws2.maximum_level then eoli1 + error12
      else eoli1
    if s.extrapolate = 0 ∧ large_interval ws2 = true then
      QagsStep.cont { sBase with error_over_large_intervals := eoli2 }
    else
      let extr2 := if s.extrapolate = 0 then 1 else s.extrapolate
      let ws3 := if s.extrapolate = 0 then { ws2 with nrmax := 1 } else ws2
      let incTaken := et2b = 0 ∧ eoli2 > s.ertest
      let inc := increase_nrmax ws3
      let incFound := inc.1
      let ws4 := if incTaken then inc.2 else ws3
      if incTaken ∧ incFound = true then
        QagsStep.cont { sBase with
          ws := ws4, extrapolate := extr2,
          error_over_large_intervals := eoli2 }
      else
        -- Perform extrapolation (lines 932-969)
        let table2 := append_table s.table area3
        let qe := intern_qelg table2
        let table3 := qe.1
        let reseps2 := qe.2.1
        let abseps2 := qe.2.2
        let ktmin2 := s.ktmin + 1
        let etA := if ktmin2 > 5 ∧ s.err_ext < 1 / 1000 * errsum2 then 5 else et
        let impCond := abseps2 < s.err_ext
        let ktmin3 := if impCond then 0 else ktmin2
        let err_ext2 := if impCond then abseps2 else s.err_ext
        let res_ext2 := if impCond then reseps2 else s.res_ext
        let correc2 := if impCond then eoli2 else s.correc
        let ertest2 := if impCond then fmax c.epsabs (c.epsrel * fabsf64 (reseps2))
          else s.ertest
        let sImp :=
          { sBase with
            ws := ws4, table := table3, reseps := reseps2, abseps := abseps2,
            ktmin := ktmin3, error_type := etA, extrapolate := extr2,
            error_over_large_intervals := eoli2, err_ext := err_ext2,
            res_ext := res_ext2, correc := correc2, ertest := ertest2 }
        if impCond ∧ err_ext2 ≤ ertest2 then QagsStep.brk sImp
        else
          let disallow2 := if table3.n = 1 then 1
            else s.disallow_extrapolation
          let sDis := { sImp with disallow_extrapolation := disallow2 }
          if etA = 5 then QagsStep.brk sDis
          else
            let sReset :=
              { sDis with
                ws := reset_nrmax ws4, extrapolate := 0,
                error_over_large_intervals := errsum2 }
            if iter2 ≥ c.limit then QagsStep.brk sReset
            else QagsStep.cont sReset

/-- The divergence test at the end of `intern_qags` (lines 999-1010),
shared verbatim by `intern_qagp` (lines 1335-1352).  Over `ℚ` the division
`res_ext / area` is 0 when `area = 0`; the source reaches that division
with `area = 0` only in corners none of the claims touch. -/
def qagsDivTest (s : QagsState) (et : ℕ) : ℚ × ℚ × Value :=
  let max_area := fmax (fabsf64 s.res_ext) (fabsf64 s.area)
  if ¬ s.positive_integrand = true ∧ max_area < 1 / 100 * s.resabs0 then
    (s.res_ext, s.err_ext, return_error et)
  else
    let ratio := s.res_ext / s.area
    let etF := if ratio < 1 / 100 ∨ ratio > 100 ∨ s.errsum > fabsf64 (s.area) then 6
      else et
    (s.res_ext, s.err_ext, return_error etF)

/-- Epilogue of `intern_qags` after the loop (lines 972-1010).  Note the
returned `abserr` on the non-`compute_result` paths is the pre-correction
`err_ext` because `*abserr` is written at line 973, before the local
`err_ext += correc` at line 981. -/
def qagsFinish (s : QagsState) : ℚ × ℚ × Value :=
  if s.err_ext = DBL_MAX then compute_result s.ws s.errsum s.error_type
  else if s.error_type ≠ 0 ∨ s.error_type2 ≠ 0 then
    let err_ext2 := if s.error_type2 ≠ 0 then s.err_ext + s.correc else s.err_ext
    let et2 := if s.error_type = 0 then 3 else s.error_type
    if s.res_ext ≠ 0 ∧ s.area ≠ 0 then
      if err_ext2 / fabsf64 (s.res_ext) > s.errsum / fabsf64 (s.area) then
        compute_result s.ws s.errsum et2
      else qagsDivTest s et2
    else if err_ext2 > s.errsum then compute_result s.ws s.errsum et2
    else if s.area = 0 then (s.res_ext, s.err_ext, return_error et2)
    else qagsDivTest s et2
  else qagsDivTest s s.error_type

/-- Initialisation of `intern_qags` up to the loop entry (lines 728-803). -/
def qagsInit (c : QagsCtx) (a b : ℚ) (w : IntegrationWorkspace) :
    Sum (ℚ × ℚ × Value) QagsState :=
  if c.limit > (w.initialise a b).limit then Sum.inl (0, 0, Value.Inval)
  else if c.epsabs ≤ 0 ∧
      (c.epsrel < 50 * DBL_EPSILON ∨ c.epsrel < 5 / 10 ^ 29) then
    Sum.inl (0, 0, Value.BadTol)
  else
    let w1 := w.initialise a b
    let k := c.q a b
    let result0 := k.1
    let abserr0 := k.2.1
    let resabs0 := k.2.2.1
    let resasc0 := k.2.2.2
    let w2 := w1.set_initial_result result0 abserr0
    let tolerance := fmax c.epsabs (c.epsrel * fabsf64 (result0))
    if abserr0 ≤ 100 * DBL_EPSILON * resabs0 ∧ abserr0 > tolerance then
      Sum.inl (result0, abserr0, Value.Round)
    else if (abserr0 ≤ tolerance ∧ abserr0 ≠ resasc0) ∨ abserr0 = 0 then
      Sum.inl (result0, abserr0, Value.Success)
    else if c.limit = 1 then Sum.inl (result0, abserr0, Value.MaxIter)
    else
      Sum.inr
        { ws := w2, table := append_table (initialise_table zeroTable) result0,
          area := result0, errsum := abserr0, tolerance := tolerance,
          ertest := 0, error_over_large_intervals := 0, reseps := 0,
          abseps := 0, correc := 0, ktmin := 0, roundoff_type1 := 0,
          roundoff_type2 := 0, roundoff_type3 := 0, error_type := 0,
          error_type2 := 0, extrapolate := 0, disallow_extrapolation := 0,
          res_ext := result0, err_ext := DBL_MAX,
          positive_integrand := test_positivity result0 resabs0,
          resabs0 := resabs0, iteration := 1 }

/-- The fuelled loop of `intern_qags` (lines 805-970). -/
def qagsLoop (c : QagsCtx) : ℕ → QagsState → Option (ℚ × ℚ × Value)
  | 0, _ => none
  | fuel + 1, s =>
    match qagsStep c s with
    | QagsStep.ret out _ => some out
    | QagsStep.brk s2 => some (qagsFinish s2)
    | QagsStep.cont s2 => qagsLoop c fuel s2

/-- `intern_qags` (lines 728-1011), assembled from init, loop and finish. -/
def intern_qags (c : QagsCtx) (a b : ℚ) (w : IntegrationWorkspace)
    (fuel : ℕ) : Option (ℚ × ℚ × Value) :=
  match qagsInit c a b w with
  | Sum.inl out => some out
  | Sum.inr s => qagsLoop c fuel s

/-- Seeding loop of `intern_qagp` (lines 1069-1090): one kernel call and
one `append_interval` per breakpoint interval, plus the `ndin[i]` flag
write, which goes into the `level` array because the source aliases
`ndin` to `level` (line 1035).  State: (ws, result0, abserr0, resabs0). -/
def qagpSeed (q : Kernel) (pts : List ℚ) :
    ℕ → ℕ → IntegrationWorkspace × ℚ × ℚ × ℚ → IntegrationWorkspace × ℚ × ℚ × ℚ
  | 0, _, st => st
  | cnt + 1, i, st =>
    let ws := st.1
    let a1 := pts.getD i 0
    let b1 := pts.getD (i + 1) 0
    let k := q a1 b1
    let area1 := k.1
    let error1 := k.2.1
    let resabs1 := k.2.2.1
    let resasc1 := k.2.2.2
    let ws2 := append_interval ws a1 b1 area1 error1
    let flag : ℕ := if error1 = resasc1 ∧ error1 ≠ 0 then 1 else 0
    let ws3 := { ws2 with level := Function.update ws2.level i flag }
    qagpSeed q pts cnt (i + 1)
      (ws3, st.2.1 + area1, st.2.2.1 + error1, st.2.2.2 + resabs1)

/-- Initial-error loop of `intern_qagp` (lines 1099-1104): inflate to
`abserr0` the error of every seed flagged in `ndin` (aliased to `level`)
and accumulate `errsum`. -/
def qagpErrsum (abserr0 : ℚ) :
    ℕ → ℕ → IntegrationWorkspace × ℚ → IntegrationWorkspace × ℚ
  | 0, _, st => st
  | cnt + 1, i, st =>
    let ws := st.1
    let ws2 := if ws.level i ≠ 0 then
        { ws with elist := Function.update ws.elist i abserr0 }
      else ws
    qagpErrsum abserr0 cnt (i + 1) (ws2, st.2 + ws2.elist i)

/-- Level-reset loop of `intern_qagp` (lines 1106-1108). -/
def qagpLevelReset : ℕ → ℕ → IntegrationWorkspace → IntegrationWorkspace
  | 0, _, ws => ws
  | cnt + 1, i, ws =>
    qagpLevelReset cnt (i + 1) { ws with level := Function.update ws.level i 0 }

/-- Initialisation of `intern_qagp` up to the loop entry (lines 1013-1147);
the loop that follows (lines 1149-1306) mirrors the `intern_qags` loop and
is not needed by any claim. -/
def qagpInit (c : QagsCtx) (pts : List ℚ) (w : IntegrationWorkspace) :
    Sum (ℚ × ℚ × Value) QagsState :=
  if c.limit > w.limit then Sum.inl (0, 0, Value.Inval)
  else if pts.length > w.limit then Sum.inl (0, 0, Value.Inval)
  else if c.epsabs ≤ 0 ∧
      (c.epsrel < 50 * DBL_EPSILON ∨ c.epsrel < 5 / 10 ^ 29) then
    Sum.inl (0, 0, Value.BadTol)
  else if (List.range (u64sub pts.length 1)).any
      (fun i => decide (pts.getD (i + 1) 0 < pts.getD i 0)) then
    Sum.inl (0, 0, Value.Inval)
  else
    let nint := u64sub pts.length 1
    let w1 := w.initialise 0 0
    let sd := qagpSeed c.q pts nint 0 (w1, 0, 0, 0)
    let w2 := sd.1
    let result0 := sd.2.1
    let abserr0 := sd.2.2.1
    let resabs0 := sd.2.2.2
    let es := qagpErrsum abserr0 nint 0 (w2, 0)
    let errsum := es.2
    let w3 := qagpLevelReset nint 0 es.1
    let w4 := w3.sort_results
    let tolerance := fmax c.epsabs (c.epsrel * fabsf64 (result0))
    if abserr0 ≤ 100 * DBL_EPSILON * resabs0 ∧ abserr0 > tolerance then
      Sum.inl (result0, abserr0, Value.Round)
    else if abserr0 ≤ tolerance then Sum.inl (result0, abserr0, Value.Success)
    else if c.limit = 1 then Sum.inl (result0, abserr0, Value.MaxIter)
    else
      Sum.inr
        { ws := w4, table := append_table (initialise_table zeroTable) result0,
          area := result0, errsum := errsum, tolerance := tolerance,
          ertest := tolerance, error_over_large_intervals := errsum,
          reseps := 0, abseps := 0, correc := 0, ktmin := 0,
          roundoff_type1 := 0, roundoff_type2 := 0, roundoff_type3 := 0,
          error_type := 0, error_type2 := 0, extrapolate := 0,
          disallow_extrapolation := 0, res_ext := result0,
          err_ext := DBL_MAX,
          positive_integrand := test_positivity result0 resabs0,
          resabs0 := resabs0, iteration := u64sub nint 1 }

/-- The multiset of consecutive pairs of a chain of points: the intervals
of the partition the chain describes. -/
def chainPairs : List ℚ → Multiset (ℚ × ℚ)
  | a :: b :: rest => (a, b) ::ₘ chainPairs (b :: rest)
  | _ => 0

/-- The list of (a, b) bounds of the active subintervals, slots 0..size. -/
def intervalList (w : IntegrationWorkspace) : List (ℚ × ℚ) :=
  (List.range w.size).map (fun k => (w.alist k, w.blist k))

/-- The active subintervals exactly tile `[A, B]`: their multiset of bounds
is the consecutive pairs of a monotone chain from `A` to `B` — equivalently,
sorted by left endpoint each `b` equals the next `a`, with no gaps and no
overlaps. -/
def Tiles (w : IntegrationWorkspace) (A B : ℚ) : Prop :=
  ∃ c : List ℚ, List.Chain' (fun x y => x ≤ y) c ∧ c.head? = some A ∧
    c.getLast? = some B ∧ (intervalList w : Multiset (ℚ × ℚ)) = chainPairs c

section helper_lemmas

theorem fmax_eq_max (a b : ℚ) : fmax a b = max a b := by
  rw [max_def]
  rfl

theorem fabsf64_eq_abs (a : ℚ) : fabsf64 a = |a| := by
  unfold fabsf64
  rcases lt_or_le a 0 with h | h
  · rw [if_pos h, abs_of_neg h]
  · rw [if_neg (not_lt.mpr h), abs_of_nonneg h]

theorem u64sub_of_le {a b : ℕ} (hb : b ≤ a) (ha : a < U64LIM) :
    u64sub a b = a - b := by
  unfold u64sub
  have h1 : a + U64LIM - b = (a - b) + U64LIM := by omega
  rw [h1, Nat.add_mod_right, Nat.mod_eq_of_lt]
  omega

theorem u64sub_one_two : u64sub 1 2 = U64LIM - 1 := by
  norm_num [u64sub, U64LIM]

@[simp] theorem qpsrt_size (w : IntegrationWorkspace) :
    (w.qpsrt).size = w.size := by
  unfold IntegrationWorkspace.qpsrt
  rfl

@[simp] theorem qpsrt_limit (w : IntegrationWorkspace) :
    (w.qpsrt).limit = w.limit := by
  unfold IntegrationWorkspace.qpsrt
  rfl

@[simp] theorem qpsrt_alist (w : IntegrationWorkspace) :
    (w.qpsrt).alist = w.alist := by
  unfold IntegrationWorkspace.qpsrt
  rfl

@[simp] theorem qpsrt_blist (w : IntegrationWorkspace) :
    (w.qpsrt).blist = w.blist := by
  unfold IntegrationWorkspace.qpsrt
  rfl

@[simp] theorem qpsrt_rlist (w : IntegrationWorkspace) :
    (w.qpsrt).rlist = w.rlist := by
  unfold IntegrationWorkspace.qpsrt
  rfl

@[simp] theorem qpsrt_elist (w : IntegrationWorkspace) :
    (w.qpsrt).elist = w.elist := by
  unfold IntegrationWorkspace.qpsrt
  rfl

@[simp] theorem qpsrt_level (w : IntegrationWorkspace) :
    (w.qpsrt).level = w.level := by
  unfold IntegrationWorkspace.qpsrt
  rfl

@[simp] theorem qpsrt_maximum_level (w : IntegrationWorkspace) :
    (w.qpsrt).maximum_level = w.maximum_level := by
  unfold IntegrationWorkspace.qpsrt
  rfl

theorem updateWrites_size (w : IntegrationWorkspace)
    (a1 b1 area1 error1 a2 b2 area2 error2 : ℚ) :
    (updateWrites w a1 b1 area1 error1 a2 b2 area2 error2).size =
      w.size + 1 := by
  unfold updateWrites
  rfl

theorem updateWrites_i (w : IntegrationWorkspace)
    (a1 b1 area1 error1 a2 b2 area2 error2 : ℚ) :
    (updateWrites w a1 b1 area1 error1 a2 b2 area2 error2).i = w.i := by
  unfold updateWrites
  by_cases herr : error2 > error1 <;> simp [herr]

theorem updateWrites_nrmax (w : IntegrationWorkspace)
    (a1 b1 area1 error1 a2 b2 area2 error2 : ℚ) :
    (updateWrites w a1 b1 area1 error1 a2 b2 area2 error2).nrmax =
      w.nrmax := by
  unfold updateWrites
  by_cases herr : error2 > error1 <;> simp [herr]

theorem updateWrites_limit (w : IntegrationWorkspace)
    (a1 b1 area1 error1 a2 b2 area2 error2 : ℚ) :
    (updateWrites w a1 b1 area1 error1 a2 b2 area2 error2).limit =
      w.limit := by
  unfold updateWrites
  by_cases herr : error2 > error1 <;> simp [herr]

theorem updateWrites_alist (w : IntegrationWorkspace)
    (a1 b1 area1 error1 a2 b2 area2 error2 : ℚ) :
    (updateWrites w a1 b1 area1 error1 a2 b2 area2 error2).alist =
      if error2 > error1 then
        Function.update (Function.update w.alist w.i a2) w.size a1
      else Function.update w.alist w.size a2 := by
  unfold updateWrites
  by_cases herr : error2 > error1 <;> simp [herr]

theorem updateWrites_blist (w : IntegrationWorkspace)
    (a1 b1 area1 error1 a2 b2 area2 error2 : ℚ) :
    (updateWrites w a1 b1 area1 error1 a2 b2 area2 error2).blist =
      if error2 > error1 then Function.update w.blist w.size b1
      else Function.update (Function.update w.blist w.i b1) w.size b2 := by
  unfold updateWrites
  by_cases herr : error2 > error1 <;> simp [herr]

theorem updateWrites_rlist (w : IntegrationWorkspace)
    (a1 b1 area1 error1 a2 b2 area2 error2 : ℚ) :
    (updateWrites w a1 b1 area1 error1 a2 b2 area2 error2).rlist =
      if error2 > error1 then
        Function.update (Function.update w.rlist w.i area2) w.size area1
      else Function.update (Function.update w.rlist w.i area1) w.size area2 := by
  unfold updateWrites
  by_cases herr : error2 > error1 <;> simp [herr]

theorem updateWrites_elist (w : IntegrationWorkspace)
    (a1 b1 area1 error1 a2 b2 area2 error2 : ℚ) :
    (updateWrites w a1 b1 area1 error1 a2 b2 area2 error2).elist =
      if error2 > error1 then
        Function.update (Function.update w.elist w.i error2) w.size error1
      else Function.update (Function.update w.elist w.i error1) w.size error2 := by
  unfold updateWrites
  by_cases herr : error2 > error1 <;> simp [herr]

theorem updateWrites_level (w : IntegrationWorkspace)
    (a1 b1 area1 error1 a2 b2 area2 error2 : ℚ) :
    (updateWrites w a1 b1 area1 error1 a2 b2 area2 error2).level =
      Function.update (Function.update w.level w.i (w.level w.i + 1))
        w.size (w.level w.i + 1) := by
  unfold updateWrites
  by_cases herr : error2 > error1 <;> simp [herr]

theorem updateWrites_maximum_level (w : IntegrationWorkspace)
    (a1 b1 area1 error1 a2 b2 area2 error2 : ℚ) :
    (updateWrites w a1 b1 area1 error1 a2 b2 area2 error2).maximum_level =
      max w.maximum_level (w.level w.i + 1) := by
  unfold updateWrites
  show (if w.level w.i + 1 > w.maximum_level then w.level w.i + 1
      else w.maximum_level) = max w.maximum_level (w.level w.i + 1)
  rcases Nat.lt_or_ge w.maximum_level (w.level w.i + 1) with hml | hml
  · rw [if_pos hml, Nat.max_eq_right (Nat.le_of_lt hml)]
  · rw [if_neg (by omega), Nat.max_eq_left hml]

@[simp] theorem initialise_limit (w : IntegrationWorkspace) (a b : ℚ) :
    (w.initialise a b).limit = w.limit := rfl

theorem qelgShiftAndFinish_nres (t : extrapolation_table)
    (n_orig newelm nres_orig : ℕ) (ep : ℕ → ℚ) (r a : ℚ) (nf : ℕ) :
    (qelgShiftAndFinish t n_orig newelm nres_orig ep r a nf).1.nres =
      nres_orig + 1 := by
  unfold qelgShiftAndFinish
  rfl

end helper_lemmas

/-! Concrete example states used by individual claims. -/

/-- C5 example: the workspace state at which every driver's first
bisection enters `qpsrt` — public operations `initialise(0,2)` and
`set_initial_result(1,10)` on a capacity-6 workspace, then the write phase
of the first `update` with children (0,1) and (1,2): size = 2, nrmax = 0. -/
def c5ws : IntegrationWorkspace :=
  updateWrites (((mkWorkspace 6).initialise 0 2).set_initial_result 1 10)
    0 1 1 10 1 2 1 1

/-- C8 example: three seeded subintervals with errors (2, 1, 3) and the
identity `order`, exactly the layout `append_interval` produces. -/
def c8ws : IntegrationWorkspace :=
  { mkWorkspace 6 with
    size := 3
    elist := fun k => if k = 0 then 2 else if k = 1 then 1 else if k = 2 then 3 else 0
    order := fun k => k }

/-- C3 example: a one-entry extrapolation table holding the value 100. -/
def c3table : extrapolation_table :=
  { n := 1
    rlist2 := fun k => if k = 0 then 100 else 0
    nres := 0
    res3la := fun _ => 0 }

/-- C9 example: a one-entry extrapolation table holding the value 7. -/
def c9table : extrapolation_table :=
  { n := 1
    rlist2 := fun k => if k = 0 then 7 else 0
    nres := 0
    res3la := fun _ => 0 }

/-- Claim C10: `return_error` maps the internal divergence code 6 (via the
decrement to case 5) to the same returned status `Value.Round` that the
roundoff classifications (internal codes 2 and 5) produce, so a caller
cannot distinguish a divergent outcome from a roundoff-limited one by the
returned status alone. -/
theorem C10_divergence_status_equals_round :
    return_error 6 = Value.Round ∧ return_error 2 = Value.Round ∧
    return_error 5 = Value.Round ∧ return_error 6 = return_error 2 := by
  decide

set_option maxRecDepth 8000 in
/-- Claim C5 (code_bug evidence): for every workspace with `nrmax = 0` —
its value on every state the drivers reach, since the only assignment to
`nrmax` is `qpsrt`'s final write-back (line 202), which is never reached —
and at least one stored subinterval within capacity, the bounds-checked
`qpsrt` fails index-out-of-bounds: its `order` CVec view is created with
length `nrmax + 1 = 1` (line 142), and with `size ≤ 2` the `last < 2`
branch writes `order[1] = 1` (line 152), while with `size ≥ 3` the
top-down insertion guard reads `order[1]` (line 179), both past the view.
The routine never completes on any reachable state, so it never leaves
`elist[order[k]]` non-increasing on the prefix `k ≤ top`: the claimed
sorted-prefix invariant is not established after any `update`/`qpsrt`. -/
theorem C5_qpsrt_fails_out_of_bounds (w : IntegrationWorkspace)
    (h0 : w.nrmax = 0) (h1 : 1 ≤ w.size) (h2 : w.size ≤ w.limit)
    (hU : w.limit < U64LIM) :
    qpsrtChecked w = none := by
  have hsU : w.size < U64LIM := lt_of_le_of_lt h2 hU
  have hlast : u64sub w.size 1 = w.size - 1 := u64sub_of_le h1 hsU
  have h01 : (0:ℕ) < 0 + 1 := by omega
  by_cases hsz : w.size - 1 < 2
  · unfold qpsrtChecked
    rw [h0, hlast]
    rw [if_pos h01, if_pos hsz, if_pos h01,
      if_neg (show ¬ (1:ℕ) < 0 + 1 by omega)]
  · have hlle : w.size - 1 ≤ w.limit := by omega
    have hllim : u64sub w.limit (w.size - 1) = w.limit - (w.size - 1) :=
      u64sub_of_le hlle hU
    have htop2 : 2 ≤ qpsrtTop w := by
      unfold qpsrtTop
      rw [hlast, hllim]
      split <;> omega
    obtain ⟨m, hm⟩ : ∃ m, qpsrtTop w - (0 + 1) = m + 1 :=
      ⟨qpsrtTop w - 2, by omega⟩
    have hslide : slideLoopChecked w.elist (0 + 1) (w.order 0 + 1)
        (w.elist (w.order 0)) 0 w.order = some (w.order, 0) := rfl
    have hins : insertMaxLoopChecked w.elist (0 + 1) (w.order 0 + 1)
        (w.elist (w.order 0)) (m + 1) w.order (0 + 1) = none := by
      unfold insertMaxLoopChecked
      rw [if_neg (show ¬ (0 + 1 < 0 + 1) by omega)]
    have hAS : qpsrtCheckedAfterSlide w (0 + 1) (w.order 0 + 1) (w.order 0)
        (w.size - 1) (qpsrtTop w) (some (w.order, 0)) =
      qpsrtCheckedAfterMax w (0 + 1) (w.order 0 + 1) (w.order 0)
        (w.size - 1) (qpsrtTop w) 0
        (insertMaxLoopChecked w.elist (0 + 1) (w.order 0 + 1)
          (w.elist (w.order 0)) (qpsrtTop w - (0 + 1)) w.order (0 + 1)) := rfl
    unfold qpsrtChecked
    rw [h0, hlast]
    rw [if_pos h01, if_neg hsz,
      if_pos (show w.order 0 < w.order 0 + 1 by omega)]
    rw [hslide, hAS, hm, hins]
    rfl

/-- Witness for C5_qpsrt_fails_out_of_bounds at the concrete state `c5ws`
every driver reaches on its first bisection: nrmax = 0, size = 2 within
the capacity 6, and the checked `qpsrt` fails. -/
theorem C5_qpsrt_fails_witness :
    c5ws.nrmax = 0 ∧ 1 ≤ c5ws.size ∧ c5ws.size ≤ c5ws.limit ∧
    c5ws.limit < U64LIM ∧ qpsrtChecked c5ws = none :=
  ⟨by decide, by decide, by decide, by decide,
   C5_qpsrt_fails_out_of_bounds c5ws (by decide) (by decide) (by decide)
     (by decide)⟩

/-- Claim C8 (code_bug evidence): starting from the identity permutation
(the exact layout of the breakpoint-seeded initial batch) with errors
(2, 1, 3), `sort_results` produces `order = (1, 2, 0)` — errors read
through it are (1, 3, 2), increasing at k = 0 — and caches `i = 1` even
though the maximum error 3 lives at index 2: the swap at lines 129-132
uses the elist index `i_max` as a position in `order`. -/
theorem C8_sort_results_not_sorted :
    (c8ws.sort_results).order 0 = 1 ∧ (c8ws.sort_results).order 1 = 2 ∧
    (c8ws.sort_results).order 2 = 0 ∧
    (c8ws.sort_results).elist ((c8ws.sort_results).order 0) <
      (c8ws.sort_results).elist ((c8ws.sort_results).order 1) ∧
    (c8ws.sort_results).i = 1 ∧
    (c8ws.sort_results).elist ((c8ws.sort_results).i) <
      (c8ws.sort_results).elist 2 := by
  decide

/-- Claim C3 (counterexample): on a one-entry table holding 100 the
transform returns the last entry as result, but the absolute error it
returns is the DBL_MAX sentinel, which exceeds the machine-epsilon-scaled
bound 5·eps·|result| by far more than 10^300 — not an epsilon-scaled
bound. -/
theorem C3_degenerate_error_is_sentinel :
    (intern_qelg c3table).2.1 = 100 ∧
    (intern_qelg c3table).2.2 = DBL_MAX ∧
    5 * DBL_EPSILON * |(intern_qelg c3table).2.1| * 10 ^ 300 < DBL_MAX := by
  have hu : u64sub 1 1 = 0 := by norm_num [u64sub, U64LIM]
  have hres : (intern_qelg c3table).2.1 = 100 := by
    simp only [intern_qelg, c3table, hu]
    norm_num
  have herr : (intern_qelg c3table).2.2 = DBL_MAX := by
    simp only [intern_qelg, c3table, hu]
    norm_num [fmax, fabsf64, DBL_EPSILON, DBL_MAX]
  refine ⟨hres, herr, ?_⟩
  rw [hres]
  norm_num [DBL_EPSILON, DBL_MAX]

/-- Claim C3 (amended): for every extrapolation table in the degenerate
regime (local `n = table.n - 1 < 2`, with at least one entry) whose last
entry is a representable double, `intern_qelg` returns the last appended
entry as the result and the arbitrarily large sentinel
`max(DBL_MAX, 5·eps·|result|) = DBL_MAX` as the absolute error. -/
theorem C3_degenerate_transform (t : extrapolation_table)
    (h1 : 1 ≤ t.n) (h2 : t.n ≤ 2) (h3 : |t.rlist2 (t.n - 1)| ≤ DBL_MAX) :
    (intern_qelg t).2.1 = t.rlist2 (t.n - 1) ∧
    (intern_qelg t).2.2 = DBL_MAX := by
  have hU : t.n < U64LIM := by
    have : (2:ℕ) < U64LIM := by norm_num [U64LIM]
    omega
  have hu : u64sub t.n 1 = t.n - 1 := u64sub_of_le h1 hU
  have hlt : t.n - 1 < 2 := by omega
  have hmax : fmax DBL_MAX (5 * DBL_EPSILON * fabsf64 (t.rlist2 (t.n - 1))) =
      DBL_MAX := by
    have h5 : (5:ℚ) * DBL_EPSILON ≤ 1 := by norm_num [DBL_EPSILON]
    have hnn : (0:ℚ) ≤ |t.rlist2 (t.n - 1)| := abs_nonneg _
    have : 5 * DBL_EPSILON * |t.rlist2 (t.n - 1)| ≤ 1 * DBL_MAX := by
      apply mul_le_mul h5 h3 hnn
      norm_num
    rw [fabsf64_eq_abs, fmax_eq_max]
    apply max_eq_left
    linarith
  have hbody : intern_qelg t =
      (t, t.rlist2 (t.n - 1),
        fmax DBL_MAX (5 * DBL_EPSILON * fabsf64 (t.rlist2 (t.n - 1)))) := by
    unfold intern_qelg
    rw [hu, if_pos hlt]
  rw [hbody]
  exact ⟨rfl, hmax⟩

/-- Witness for C3_degenerate_transform at the concrete table c3table. -/
theorem C3_degenerate_transform_witness :
    (intern_qelg c3table).2.1 = c3table.rlist2 (c3table.n - 1) ∧
    (intern_qelg c3table).2.2 = DBL_MAX :=
  C3_degenerate_transform c3table (by decide) (by decide)
    (by norm_num [c3table, DBL_MAX])

/-- C7 example: capacity-4 workspace holding one subinterval [0, 1]. -/
def c7ws : IntegrationWorkspace :=
  ((mkWorkspace 4).initialise 0 1).set_initial_result 5 6

/-- Claim C7: for every workspace with at least one active subinterval and
a valid cached index `i`, the write phase of `update` (lines 241-288, all
accesses within its local CVec views of length `max(i, size) + 1`, so this
phase of the source always completes) replaces slot `i` with the child of
larger error without rewriting the shared boundary (right half keeps
`blist[i]` when `error2 > error1`, left half keeps `alist[i]` otherwise),
writes the other child at index `size`, increments `size` by one, sets
both children's level to the parent's level plus one, and raises
`maximum_level` to that level when it exceeds the old maximum.  These are
exactly the fields the claim names; the trailing `qpsrt` call of line 290
never writes any of them (it touches only order, i and nrmax), though it
then fails its own bounds checks (claim C5). -/
theorem C7_update_children (w : IntegrationWorkspace)
    (a1 b1 area1 error1 a2 b2 area2 error2 : ℚ) (h : w.i < w.size) :
    (updateWrites w a1 b1 area1 error1 a2 b2 area2 error2).size =
      w.size + 1 ∧
    (updateWrites w a1 b1 area1 error1 a2 b2 area2 error2).level w.i =
      w.level w.i + 1 ∧
    (updateWrites w a1 b1 area1 error1 a2 b2 area2 error2).level w.size =
      w.level w.i + 1 ∧
    (updateWrites w a1 b1 area1 error1 a2 b2 area2 error2).maximum_level =
      max w.maximum_level (w.level w.i + 1) ∧
    (error2 > error1 →
      (updateWrites w a1 b1 area1 error1 a2 b2 area2 error2).alist w.i = a2 ∧
      (updateWrites w a1 b1 area1 error1 a2 b2 area2 error2).blist w.i =
        w.blist w.i ∧
      (updateWrites w a1 b1 area1 error1 a2 b2 area2 error2).rlist w.i = area2 ∧
      (updateWrites w a1 b1 area1 error1 a2 b2 area2 error2).elist w.i = error2 ∧
      (updateWrites w a1 b1 area1 error1 a2 b2 area2 error2).alist w.size = a1 ∧
      (updateWrites w a1 b1 area1 error1 a2 b2 area2 error2).blist w.size = b1 ∧
      (updateWrites w a1 b1 area1 error1 a2 b2 area2 error2).rlist w.size = area1 ∧
      (updateWrites w a1 b1 area1 error1 a2 b2 area2 error2).elist w.size = error1) ∧
    (¬ error2 > error1 →
      (updateWrites w a1 b1 area1 error1 a2 b2 area2 error2).alist w.i =
        w.alist w.i ∧
      (updateWrites w a1 b1 area1 error1 a2 b2 area2 error2).blist w.i = b1 ∧
      (updateWrites w a1 b1 area1 error1 a2 b2 area2 error2).rlist w.i = area1 ∧
      (updateWrites w a1 b1 area1 error1 a2 b2 area2 error2).elist w.i = error1 ∧
      (updateWrites w a1 b1 area1 error1 a2 b2 area2 error2).alist w.size = a2 ∧
      (updateWrites w a1 b1 area1 error1 a2 b2 area2 error2).blist w.size = b2 ∧
      (updateWrites w a1 b1 area1 error1 a2 b2 area2 error2).rlist w.size = area2 ∧
      (updateWrites w a1 b1 area1 error1 a2 b2 area2 error2).elist w.size = error2) := by
  have hne : w.i ≠ w.size := Nat.ne_of_lt h
  refine ⟨updateWrites_size w a1 b1 area1 error1 a2 b2 area2 error2, ?_, ?_,
    updateWrites_maximum_level w a1 b1 area1 error1 a2 b2 area2 error2, ?_, ?_⟩
  · rw [updateWrites_level]
    simp [Function.update_apply, hne]
  · rw [updateWrites_level]
    simp [Function.update_apply]
  · intro herr
    rw [updateWrites_alist, updateWrites_blist, updateWrites_rlist,
      updateWrites_elist]
    simp [herr, Function.update_apply, hne]
  · intro herr
    rw [updateWrites_alist, updateWrites_blist, updateWrites_rlist,
      updateWrites_elist]
    simp [herr, Function.update_apply, hne]

/-- Witness for C7_update_children at a concrete one-subinterval workspace
with child data (0, 1/2, 1, 2) and (1/2, 1, 3, 4). -/
theorem C7_update_children_witness :
    (updateWrites c7ws 0 (1/2) 1 2 (1/2) 1 3 4).size = c7ws.size + 1 ∧
    (updateWrites c7ws 0 (1/2) 1 2 (1/2) 1 3 4).level c7ws.i =
      c7ws.level c7ws.i + 1 ∧
    (updateWrites c7ws 0 (1/2) 1 2 (1/2) 1 3 4).level c7ws.size =
      c7ws.level c7ws.i + 1 ∧
    (updateWrites c7ws 0 (1/2) 1 2 (1/2) 1 3 4).maximum_level =
      max c7ws.maximum_level (c7ws.level c7ws.i + 1) ∧
    ((4:ℚ) > 2 →
      (updateWrites c7ws 0 (1/2) 1 2 (1/2) 1 3 4).alist c7ws.i = 1/2 ∧
      (updateWrites c7ws 0 (1/2) 1 2 (1/2) 1 3 4).blist c7ws.i =
        c7ws.blist c7ws.i ∧
      (updateWrites c7ws 0 (1/2) 1 2 (1/2) 1 3 4).rlist c7ws.i = 3 ∧
      (updateWrites c7ws 0 (1/2) 1 2 (1/2) 1 3 4).elist c7ws.i = 4 ∧
      (updateWrites c7ws 0 (1/2) 1 2 (1/2) 1 3 4).alist c7ws.size = 0 ∧
      (updateWrites c7ws 0 (1/2) 1 2 (1/2) 1 3 4).blist c7ws.size = 1/2 ∧
      (updateWrites c7ws 0 (1/2) 1 2 (1/2) 1 3 4).rlist c7ws.size = 1 ∧
      (updateWrites c7ws 0 (1/2) 1 2 (1/2) 1 3 4).elist c7ws.size = 2) ∧
    (¬ (4:ℚ) > 2 →
      (updateWrites c7ws 0 (1/2) 1 2 (1/2) 1 3 4).alist c7ws.i =
        c7ws.alist c7ws.i ∧
      (updateWrites c7ws 0 (1/2) 1 2 (1/2) 1 3 4).blist c7ws.i = 1/2 ∧
      (updateWrites c7ws 0 (1/2) 1 2 (1/2) 1 3 4).rlist c7ws.i = 1 ∧
      (updateWrites c7ws 0 (1/2) 1 2 (1/2) 1 3 4).elist c7ws.i = 2 ∧
      (updateWrites c7ws 0 (1/2) 1 2 (1/2) 1 3 4).alist c7ws.size = 1/2 ∧
      (updateWrites c7ws 0 (1/2) 1 2 (1/2) 1 3 4).blist c7ws.size = 1 ∧
      (updateWrites c7ws 0 (1/2) 1 2 (1/2) 1 3 4).rlist c7ws.size = 3 ∧
      (updateWrites c7ws 0 (1/2) 1 2 (1/2) 1 3 4).elist c7ws.size = 4) :=
  C7_update_children c7ws 0 (1/2) 1 2 (1/2) 1 3 4 (by decide)

/-- C2 example run parameters: a constant kernel returning
(result, abserr, resabs, resasc) = (1, 1, 1, 0), epsabs = 1, epsrel = 0
and limit = 3, on a capacity-100 workspace — every validation of
`intern_qagp` accepts them. -/
def c2ctx : QagsCtx :=
  { q := fun _ _ => (1, 1, 1, 0), epsabs := 1, epsrel := 0, limit := 3 }

/-- C2 example breakpoints: five ascending points, hence four seeded
intervals. -/
def c2pts : List ℚ := [0, 1, 2, 3, 4]

/-- The workspace size carried by the state with which initialisation
falls through to the main loop (`Sum.inr`); 0 on the early-return
paths. -/
def seededSize : Sum (ℚ × ℚ × Value) QagsState → ℕ
  | Sum.inl _ => 0
  | Sum.inr st => st.ws.size

/-- Claim C2 (code_bug evidence): `intern_qagp` validates the breakpoint
count against the workspace capacity (`pts.len() > (*w).limit`,
line 1047), not against the run's `limit` parameter, so with limit = 3 on
a capacity-100 workspace (validated parameters: limit does not exceed the
capacity) the seeding loop appends nint = 4 subintervals and reaches the
main loop with size = 4 > limit = 3: the workspace size exceeds the
configured limit right after the seeding operations, before any
bisection.  (The seeding path — `append_interval`, the `ndin`/`elist`
passes and `sort_results` — performs no `qpsrt` call and every CVec
access on it is within its view, so this state is reached by the real
program.) -/
theorem C2_qagp_size_exceeds_limit :
    c2ctx.limit ≤ (mkWorkspace 100).limit ∧
    c2pts.length ≤ (mkWorkspace 100).limit ∧
    (qagpInit c2ctx c2pts (mkWorkspace 100)).isRight = true ∧
    seededSize (qagpInit c2ctx c2pts (mkWorkspace 100)) = 4 ∧
    c2ctx.limit = 3 := by
  with_unfolding_all decide

theorem chainPairs_ordered : ∀ (c : List ℚ),
    List.Chain' (fun p q => p ≤ q) c →
    ∀ x y : ℚ, (x, y) ∈ chainPairs c → x ≤ y
  | [], _, x, y, h => absurd h (by
      rw [show chainPairs [] = 0 from rfl]
      exact Multiset.not_mem_zero _)
  | [a], _, x, y, h => absurd h (by
      rw [show chainPairs [a] = 0 from rfl]
      exact Multiset.not_mem_zero _)
  | a :: b :: rest, hc, x, y, h => by
    rw [show chainPairs (a :: b :: rest) = (a, b) ::ₘ chainPairs (b :: rest)
      from rfl] at h
    rcases Multiset.mem_cons.mp h with heq | htl
    · rw [Prod.mk.injEq] at heq
      obtain ⟨hx, hy⟩ := heq
      subst hx
      subst hy
      exact (List.chain'_cons.mp hc).1
    · exact chainPairs_ordered (b :: rest) (List.chain'_cons.mp hc).2 x y htl

theorem chain_insert_mid (x y m : ℚ) (hxm : x ≤ m) (hmy : m ≤ y) :
    ∀ (c : List ℚ) (s : Multiset (ℚ × ℚ)),
      List.Chain' (fun p q => p ≤ q) c →
      chainPairs c = (x, y) ::ₘ s →
      ∃ c2 : List ℚ, List.Chain' (fun p q => p ≤ q) c2 ∧
        c2.head? = c.head? ∧ c2.getLast? = c.getLast? ∧
        chainPairs c2 = (x, m) ::ₘ (m, y) ::ₘ s
  | [], s, _, heq => absurd heq.symm (by
      rw [show chainPairs [] = 0 from rfl]
      exact Multiset.cons_ne_zero)
  | [a], s, _, heq => absurd heq.symm (by
      rw [show chainPairs [a] = 0 from rfl]
      exact Multiset.cons_ne_zero)
  | a :: b :: rest, s, hc, heq => by
    rw [show chainPairs (a :: b :: rest) = (a, b) ::ₘ chainPairs (b :: rest)
      from rfl] at heq
    rcases Multiset.cons_eq_cons.mp heq with ⟨h1, h2⟩ | ⟨hne, cs, htl, hs⟩
    · rw [Prod.mk.injEq] at h1
      obtain ⟨hax, hby⟩ := h1
      subst hax
      subst hby
      refine ⟨a :: m :: b :: rest, ?_, rfl, ?_, ?_⟩
      · exact List.chain'_cons.mpr ⟨hxm, List.chain'_cons.mpr
          ⟨hmy, (List.chain'_cons.mp hc).2⟩⟩
      · simp only [List.getLast?_cons_cons]
      · rw [show chainPairs (a :: m :: b :: rest) =
          (a, m) ::ₘ (m, b) ::ₘ chainPairs (b :: rest) from rfl, h2]
    · obtain ⟨c2', hch', hhd', hlst', hpairs'⟩ :=
        chain_insert_mid x y m hxm hmy (b :: rest) cs
          (List.chain'_cons.mp hc).2 htl
      obtain ⟨t, rfl⟩ : ∃ t, c2' = b :: t := by
        cases c2' with
        | nil => exact absurd hhd' (by simp)
        | cons hd t =>
          refine ⟨t, ?_⟩
          have : hd = b := by simpa using hhd'
          rw [this]
      refine ⟨a :: b :: t, List.chain'_cons.mpr
        ⟨(List.chain'_cons.mp hc).1, hch'⟩, rfl, ?_, ?_⟩
      · rw [List.getLast?_cons_cons, hlst', List.getLast?_cons_cons]
      · rw [show chainPairs (a :: b :: t) = (a, b) ::ₘ chainPairs (b :: t)
          from rfl, hpairs', hs]
        rw [Multiset.cons_swap, Multiset.cons_swap (a, b) (m, y)]

theorem intervalList_coe (w : IntegrationWorkspace) :
    (intervalList w : Multiset (ℚ × ℚ)) =
      Multiset.map (fun k => (w.alist k, w.blist k))
        (Multiset.range w.size) := rfl

theorem intervalList_updateWrites (w : IntegrationWorkspace)
    (b1 a2 r1 e1 r2 e2 : ℚ) (hi : w.i < w.size) :
    (intervalList (updateWrites w (w.alist w.i) b1 r1 e1 a2 (w.blist w.i)
        r2 e2) : Multiset (ℚ × ℚ)) =
      (w.alist w.i, b1) ::ₘ (a2, w.blist w.i) ::ₘ
        ((intervalList w : Multiset (ℚ × ℚ)).erase
          (w.alist w.i, w.blist w.i)) := by
  have hne : w.i ≠ w.size := Nat.ne_of_lt hi
  have hsplit : Multiset.range w.size =
      w.i ::ₘ (Multiset.range w.size).erase w.i :=
    (Multiset.cons_erase (Multiset.mem_range.mpr hi)).symm
  have herase : (intervalList w : Multiset (ℚ × ℚ)).erase
      (w.alist w.i, w.blist w.i) =
      Multiset.map (fun k => (w.alist k, w.blist k))
        ((Multiset.range w.size).erase w.i) := by
    rw [intervalList_coe, hsplit, Multiset.map_cons,
      Multiset.erase_cons_head, Multiset.erase_cons_head]
  have hmap : Multiset.map (fun k =>
      ((updateWrites w (w.alist w.i) b1 r1 e1 a2 (w.blist w.i) r2 e2).alist k,
       (updateWrites w (w.alist w.i) b1 r1 e1 a2 (w.blist w.i) r2 e2).blist k))
        ((Multiset.range w.size).erase w.i) =
      Multiset.map (fun k => (w.alist k, w.blist k))
        ((Multiset.range w.size).erase w.i) := by
    refine Multiset.map_congr rfl (fun k hk => ?_)
    have hkd := (Multiset.nodup_range w.size).mem_erase_iff.mp hk
    have hks : k ≠ w.size := Nat.ne_of_lt (Multiset.mem_range.mp hkd.2)
    show ((updateWrites w (w.alist w.i) b1 r1 e1 a2 (w.blist w.i) r2 e2).alist k,
      (updateWrites w (w.alist w.i) b1 r1 e1 a2 (w.blist w.i) r2 e2).blist k) =
      (w.alist k, w.blist k)
    rw [updateWrites_alist, updateWrites_blist]
    by_cases herr : e2 > e1 <;>
      simp [herr, Function.update_noteq hkd.1, Function.update_noteq hks]
  rw [intervalList_coe, updateWrites_size, Multiset.range_succ, hsplit,
    Multiset.map_cons, Multiset.map_cons, hmap, herase]
  show ((updateWrites w (w.alist w.i) b1 r1 e1 a2 (w.blist w.i) r2 e2).alist
      w.size,
    (updateWrites w (w.alist w.i) b1 r1 e1 a2 (w.blist w.i) r2 e2).blist
      w.size) ::ₘ
    ((updateWrites w (w.alist w.i) b1 r1 e1 a2 (w.blist w.i) r2 e2).alist w.i,
     (updateWrites w (w.alist w.i) b1 r1 e1 a2 (w.blist w.i) r2 e2).blist
       w.i) ::ₘ
    Multiset.map (fun k => (w.alist k, w.blist k))
      ((Multiset.range w.size).erase w.i) = _
  rw [updateWrites_alist, updateWrites_blist]
  by_cases herr : e2 > e1
  · rw [if_pos herr, if_pos herr]
    simp only [Function.update_same, Function.update_noteq hne]
  · rw [if_neg herr, if_neg herr]
    simp only [Function.update_same, Function.update_noteq hne]
    exact Multiset.cons_swap _ _ _

/-- C4 example: a capacity-3 workspace holding the single seeded
subinterval [0, 2] with result 1 and error 1. -/
def c4ws : IntegrationWorkspace :=
  ((mkWorkspace 3).initialise 0 2).set_initial_result 1 1

/-- Claim C4: the active subintervals (slots 0..size) exactly tile the
original interval — their bounds are the consecutive pairs of a monotone
chain from A to B (`Tiles`) — at the start of every driver (the seeded
single interval [a, b] tiles [a, b]) and after every bisection: the write
phase of `update` (lines 241-288) called, as every driver calls it
(e.g. lines 421-430), with the exact midpoint b1 = (a_i + b_i)/2 and
a1 = a_i, a2 = b1, b2 = b_i on a valid slot i preserves `Tiles`, replacing
the parent (a_i, b_i) by (a_i, m) and (m, b_i).  The tiling is carried
entirely by alist, blist and size, which only this write phase ever
writes: the trailing `qpsrt` of line 290 touches none of them. -/
theorem C4_bisection_preserves_tiling :
    (∀ (w0 : IntegrationWorkspace) (a b r e : ℚ), a ≤ b →
      Tiles ((w0.initialise a b).set_initial_result r e) a b) ∧
    (∀ (w : IntegrationWorkspace) (A B r1 e1 r2 e2 : ℚ),
      w.i < w.size → Tiles w A B →
      Tiles (updateWrites w (w.alist w.i)
        ((1/2) * (w.alist w.i + w.blist w.i)) r1 e1
        ((1/2) * (w.alist w.i + w.blist w.i)) (w.blist w.i) r2 e2) A B) := by
  constructor
  · intro w0 a b r e hab
    refine ⟨[a, b], List.chain'_pair.mpr hab, rfl, rfl, ?_⟩
    rfl
  · intro w A B r1 e1 r2 e2 hi ht
    obtain ⟨c, hch, hhd, hlst, hpairs⟩ := ht
    have hmem : (w.alist w.i, w.blist w.i) ∈
        (intervalList w : Multiset (ℚ × ℚ)) := by
      rw [intervalList_coe]
      exact Multiset.mem_map.mpr
        ⟨w.i, Multiset.mem_range.mpr hi, rfl⟩
    have hsplitc : chainPairs c = (w.alist w.i, w.blist w.i) ::ₘ
        ((intervalList w : Multiset (ℚ × ℚ)).erase
          (w.alist w.i, w.blist w.i)) := by
      rw [← hpairs]
      exact (Multiset.cons_erase hmem).symm
    have hab : w.alist w.i ≤ w.blist w.i :=
      chainPairs_ordered c hch _ _
        (by rw [hsplitc]; exact Multiset.mem_cons_self _ _)
    have hm1 : w.alist w.i ≤ (1/2) * (w.alist w.i + w.blist w.i) := by
      linarith
    have hm2 : (1/2) * (w.alist w.i + w.blist w.i) ≤ w.blist w.i := by
      linarith
    obtain ⟨c2, hch2, hhd2, hlst2, hpairs2⟩ :=
      chain_insert_mid (w.alist w.i) (w.blist w.i)
        ((1/2) * (w.alist w.i + w.blist w.i)) hm1 hm2 c
        ((intervalList w : Multiset (ℚ × ℚ)).erase
          (w.alist w.i, w.blist w.i)) hch hsplitc
    refine ⟨c2, hch2, by rw [hhd2, hhd], by rw [hlst2, hlst], ?_⟩
    rw [intervalList_updateWrites w _ _ r1 e1 r2 e2 hi, hpairs2]

/-- Witness for C4_bisection_preserves_tiling: the capacity-3 workspace
seeded with [0, 2] tiles [0, 2], and so does its state after the write
phase of a midpoint bisection of slot 0. -/
theorem C4_bisection_preserves_tiling_witness :
    (0:ℚ) ≤ 2 ∧ Tiles c4ws 0 2 ∧
    Tiles (updateWrites c4ws (c4ws.alist c4ws.i)
      ((1/2) * (c4ws.alist c4ws.i + c4ws.blist c4ws.i)) 1 1
      ((1/2) * (c4ws.alist c4ws.i + c4ws.blist c4ws.i))
      (c4ws.blist c4ws.i) 1 1) 0 2 :=
  ⟨by norm_num,
   C4_bisection_preserves_tiling.1 (mkWorkspace 3) 0 2 1 1 (by norm_num),
   C4_bisection_preserves_tiling.2 c4ws 0 2 1 1 1 1 (by decide)
     (C4_bisection_preserves_tiling.1 (mkWorkspace 3) 0 2 1 1
       (by norm_num))⟩

/-- Claim C9 (counterexample): a transform call on a one-entry table takes
the degenerate early return and leaves `nres` unchanged at 0 instead of
incrementing it to 1, so `nres` does not count every transform call. -/
theorem C9_nres_not_incremented :
    (intern_qelg c9table).1.nres = c9table.nres ∧
    (intern_qelg c9table).1.nres ≠ c9table.nres + 1 := by
  decide

/-- Claim C9 (amended): every transform call either takes one of the two
early-return paths (the `n < 2` degenerate case or the in-loop
machine-accuracy convergence), leaving the entire table — `nres`
included — unchanged, or it increments `nres` by exactly one. -/
theorem C9_nres_increment_characterised (t : extrapolation_table) :
    (qelgEarlyExit t = true ∧ (intern_qelg t).1 = t) ∨
    (qelgEarlyExit t = false ∧ (intern_qelg t).1.nres = t.nres + 1) := by
  unfold intern_qelg qelgEarlyExit
  by_cases h : u64sub t.n 1 < 2
  · rw [if_pos h, if_pos h]
    exact Or.inl ⟨rfl, rfl⟩
  · rw [if_neg h, if_neg h]
    cases hm : qelgMain t with
    | conv r a => exact Or.inl ⟨rfl, rfl⟩
    | trunc ep r a nf =>
      exact Or.inr ⟨rfl, qelgShiftAndFinish_nres t _ _ t.nres ep r a nf⟩
    | comp ep r a =>
      exact Or.inr ⟨rfl, qelgShiftAndFinish_nres t _ _ t.nres ep r a _⟩

set_option maxRecDepth 8000 in
/-- C1 example kernel: every call returns (result, abserr, resabs, resasc)
= (1, 1, 1, 0), so every local error estimate is 1 and `resasc != error`
everywhere. -/
def c1q : Kernel := fun _ _ => (1, 1, 1, 0)

/-- C1 example workspace as `intern_qag` leaves it before its loop:
initialised over [0, 1] with first result 1 and first error 1. -/
def c1ws : IntegrationWorkspace :=
  ((mkWorkspace 6).initialise 0 1).set_initial_result 1 1

theorem c1_body_step (s : QagState) (hws : s.ws = c1ws) (hit : s.iteration = 1)
    (hr1 : s.roundoff_type1 = 0) (hr2 : s.roundoff_type2 = 0)
    (het : s.error_type = 0) :
    qagBody c1q (1/2) 0 s =
      { s with area := s.area + 1, errsum := s.errsum + 1, tolerance := 1/2 } := by
  simp only [qagBody]
  rw [hws, hit, hr1, hr2, het]
  simp [c1q, c1ws, IntegrationWorkspace.retrieve,
    IntegrationWorkspace.set_initial_result, IntegrationWorkspace.initialise,
    mkWorkspace, Function.update_apply, subinterval_too_small]
  norm_num [fmax, fabsf64]

theorem c1_loop_never_exits : ∀ (fuel : ℕ) (s : QagState), s.ws = c1ws →
    s.iteration = 1 → s.roundoff_type1 = 0 → s.roundoff_type2 = 0 →
    s.error_type = 0 → (1:ℚ) ≤ s.errsum →
    qagLoop c1q (1/2) 0 4 fuel s = none := by
  intro fuel
  induction fuel with
  | zero => intro s _ _ _ _ _ _; rfl
  | succ n ih =>
    intro s hws hit hr1 hr2 het herr
    have hbody := c1_body_step s hws hit hr1 hr2 het
    show (if (qagBody c1q (1/2) 0 s).iteration < 4 ∧
        (qagBody c1q (1/2) 0 s).error_type = 0 ∧
        (qagBody c1q (1/2) 0 s).errsum > (qagBody c1q (1/2) 0 s).tolerance then
      qagLoop c1q (1/2) 0 4 n (qagBody c1q (1/2) 0 s) else
      some (qagEpilogue 4 (qagBody c1q (1/2) 0 s))) = none
    rw [hbody]
    rw [if_pos ?hguard]
    case hguard =>
      refine ⟨?_, ?_, ?_⟩
      · show s.iteration < 4
        omega
      · show s.error_type = 0
        exact het
      · show s.errsum + 1 > 1/2
        linarith
    exact ih _ hws hit hr1 hr2 het (by simpa using by linarith)

/-- Claim C1 (code_bug evidence): on the plain adaptive driver over [0, 1]
with epsabs = 1/2, epsrel = 0, limit = 4 and a kernel that always reports
(result, abserr, resabs, resasc) = (1, 1, 1, 0), the convergence, roundoff
and singularity exits are never taken, yet the loop never stops: for every
fuel bound the loop is still running (`intern_qag` never returns), because
`iteration` is declared immutable at 1 (line 405) — the guard
`iteration < limit` is permanently true and the budget is never exhausted
— and the loop never calls `update`, so it re-bisects the same interval
forever instead of returning MaxIter. -/
theorem C1_qag_loop_never_reaches_limit (fuel : ℕ) :
    intern_qag c1q 0 1 (1/2) 0 4 (mkWorkspace 6) fuel = none := by
  have h1 : ¬ (4 > ((mkWorkspace 6).initialise 0 1).limit) := by decide
  have h2 : ¬ ((1/2 : ℚ) ≤ 0 ∧
      ((0:ℚ) < 50 * DBL_EPSILON ∨ (0:ℚ) < 5 / 10 ^ 29)) := by
    intro hc
    exact absurd hc.1 (by norm_num)
  have h3 : ¬ ((c1q 0 1).2.1 ≤ 50 * DBL_EPSILON * (c1q 0 1).2.2.1 ∧
      (c1q 0 1).2.1 > fmax (1/2 : ℚ) (0 * fabsf64 (c1q 0 1).1)) := by
    rintro ⟨hle, hgt⟩
    norm_num [c1q, DBL_EPSILON] at hle
  have h4 : ¬ (((c1q 0 1).2.1 ≤ fmax (1/2 : ℚ) (0 * fabsf64 (c1q 0 1).1) ∧
      (c1q 0 1).2.1 ≠ (c1q 0 1).2.2.2) ∨ (c1q 0 1).2.1 = 0) := by
    rintro (⟨hle, hne2⟩ | hz)
    · rw [fmax_eq_max, le_max_iff] at hle
      rcases hle with hle | hle <;> norm_num [c1q, fabsf64] at hle
    · norm_num [c1q] at hz
  have h5 : ¬ ((4:ℕ) = 1) := by decide
  unfold intern_qag
  rw [if_neg h1, if_neg h2, if_neg h3, if_neg h4, if_neg h5]
  exact c1_loop_never_exits fuel _ rfl rfl rfl rfl rfl (by norm_num [c1q])

/-- Claim C6: with `epsabs = 0` and `epsrel = 0`, each of the three
drivers returns the BadTol status during validation, for every kernel —
the result is a constant independent of the kernel, so the quadrature
kernel (and hence the integrand) is never evaluated; and QAGP with a
breakpoint list that is not ascending (some `pts[i+1] < pts[i]`) returns
the invalid-parameter status, likewise for every kernel. -/
theorem C6_zero_tolerance_rejected :
    (∀ (q : Kernel) (a b : ℚ) (limit : ℕ) (w : IntegrationWorkspace) (fuel : ℕ),
      ¬ limit > w.limit →
      intern_qag q a b 0 0 limit w fuel = some (0, 0, Value.BadTol)) ∧
    (∀ (q : Kernel) (a b : ℚ) (limit : ℕ) (w : IntegrationWorkspace) (fuel : ℕ),
      ¬ limit > w.limit →
      intern_qags { q := q, epsabs := 0, epsrel := 0, limit := limit } a b w fuel =
        some (0, 0, Value.BadTol)) ∧
    (∀ (q : Kernel) (pts : List ℚ) (limit : ℕ) (w : IntegrationWorkspace),
      ¬ limit > w.limit → ¬ pts.length > w.limit →
      qagpInit { q := q, epsabs := 0, epsrel := 0, limit := limit } pts w =
        Sum.inl (0, 0, Value.BadTol)) ∧
    (∀ (q : Kernel) (pts : List ℚ) (epsabs epsrel : ℚ) (limit : ℕ)
        (w : IntegrationWorkspace),
      ¬ limit > w.limit → ¬ pts.length > w.limit →
      ¬ (epsabs ≤ 0 ∧ (epsrel < 50 * DBL_EPSILON ∨ epsrel < 5 / 10 ^ 29)) →
      (∃ i, i < u64sub pts.length 1 ∧ pts.getD (i + 1) 0 < pts.getD i 0) →
      qagpInit { q := q, epsabs := epsabs, epsrel := epsrel, limit := limit }
          pts w = Sum.inl (0, 0, Value.Inval)) := by
  have hbadtol : (0:ℚ) ≤ 0 ∧
      ((0:ℚ) < 50 * DBL_EPSILON ∨ (0:ℚ) < 5 / 10 ^ 29) :=
    ⟨le_refl 0, Or.inl (by norm_num [DBL_EPSILON])⟩
  refine ⟨?_, ?_, ?_, ?_⟩
  · intro q a b limit w fuel hlim
    unfold intern_qag
    rw [initialise_limit, if_neg hlim, if_pos hbadtol]
  · intro q a b limit w fuel hlim
    have hinit : qagsInit { q := q, epsabs := 0, epsrel := 0, limit := limit }
        a b w = Sum.inl (0, 0, Value.BadTol) := by
      unfold qagsInit
      rw [initialise_limit, if_neg hlim, if_pos hbadtol]
    unfold intern_qags
    rw [hinit]
  · intro q pts limit w hlim hpts
    unfold qagpInit
    rw [if_neg hlim, if_neg hpts, if_pos hbadtol]
  · intro q pts epsabs epsrel limit w hlim hpts htol hex
    obtain ⟨i, hi, hdec⟩ := hex
    have hany : ((List.range (u64sub pts.length 1)).any
        (fun i => decide (pts.getD (i + 1) 0 < pts.getD i 0))) = true := by
      rw [List.any_eq_true]
      exact ⟨i, List.mem_range.mpr hi, by simpa using hdec⟩
    unfold qagpInit
    rw [if_neg hlim, if_neg hpts, if_neg htol, if_pos hany]

/-- Witness for C6_zero_tolerance_rejected: qag and qags over [0, 1] with
zero tolerances and a constant kernel, qagp with zero tolerances over
pts = [0, 1, 2], and qagp with a descending pair in pts = [0, 2, 1]. -/
theorem C6_zero_tolerance_rejected_witness :
    intern_qag (fun _ _ => (1, 1, 1, 0)) 0 1 0 0 2 (mkWorkspace 5) 3 =
      some (0, 0, Value.BadTol) ∧
    intern_qags
      { q := fun _ _ => (1, 1, 1, 0), epsabs := 0, epsrel := 0, limit := 2 }
      0 1 (mkWorkspace 5) 3 = some (0, 0, Value.BadTol) ∧
    qagpInit
      { q := fun _ _ => (1, 1, 1, 0), epsabs := 0, epsrel := 0, limit := 2 }
      [0, 1, 2] (mkWorkspace 5) = Sum.inl (0, 0, Value.BadTol) ∧
    qagpInit
      { q := fun _ _ => (1, 1, 1, 0), epsabs := 1, epsrel := 0, limit := 2 }
      [0, 2, 1] (mkWorkspace 5) = Sum.inl (0, 0, Value.Inval) :=
  ⟨C6_zero_tolerance_rejected.1 (fun _ _ => (1, 1, 1, 0)) 0 1 2
      (mkWorkspace 5) 3 (by decide),
   C6_zero_tolerance_rejected.2.1 (fun _ _ => (1, 1, 1, 0)) 0 1 2
      (mkWorkspace 5) 3 (by decide),
   C6_zero_tolerance_rejected.2.2.1 (fun _ _ => (1, 1, 1, 0)) [0, 1, 2] 2
      (mkWorkspace 5) (by decide) (by decide),
   C6_zero_tolerance_rejected.2.2.2 (fun _ _ => (1, 1, 1, 0)) [0, 2, 1] 1 0 2
      (mkWorkspace 5) (by decide) (by decide)
      (by norm_num [DBL_EPSILON])
      ⟨1, by norm_num [u64sub, U64LIM], by norm_num⟩⟩

end RustGsl
